import Mathlib

/-!
# GenericComponentInstance (src/project/circuit/genericcomponentinstance.cpp)

A shallow embedding of the component-instance class of the circuit model:
its parsing constructor, `setName`, `addToCircuit` / `removeFromCircuit`,
and the symbol-instance registry, followed by the properties proved about them.

Layout:
* the framework values the class works on (`QUuid`, `QHash`, `QDomElement`),
  modelled on their documented behaviour;
* the library catalog and the signal instance, which live in other files of the
  project;
* the class itself, one definition per member function;
* the theorems.
-/

namespace project

/-! ## Framework values: QUuid -/

/-- A 128-bit identifier (`QUuid`), held as one number: `data1`, `data2`, `data3`
and the eight bytes of `data4`, most significant first. The null UUID is `0`. -/
structure QUuid where
  val : Nat
  deriving DecidableEq, Repr

/-- Default construction `QUuid()`: the null UUID. -/
def QUuid.null : QUuid := ⟨0⟩

/-- Null test `QUuid::isNull()`: true exactly for the all-zero UUID. -/
def QUuid.isNull (u : QUuid) : Bool := u.val == 0

/-- Value of one hexadecimal digit, in either case; `none` for any other character. -/
def hexValue (c : Char) : Option Nat :=
  let n := c.toNat
  if 48 ≤ n ∧ n ≤ 57 then some (n - 48)
  else if 97 ≤ n ∧ n ≤ 102 then some (n - 97 + 10)
  else if 65 ≤ n ∧ n ≤ 70 then some (n - 65 + 10)
  else none

/-- Reads exactly `n` hexadecimal digits from the front of `src`, accumulating onto
`acc`; returns the number and the unread rest, or `none` at the first
character that is not a digit (the end of the text included). -/
def fromHex : Nat → Nat → List Char → Option (Nat × List Char)
  | 0, acc, src => some (acc, src)
  | _ + 1, _, [] => none
  | n + 1, acc, c :: src =>
    match hexValue c with
    | none => none
    | some d => fromHex n (acc * 16 + d) src

/-- Consumes the separator `-`. -/
def dash : List Char → Option (List Char)
  | c :: src => if c = '-' then some src else none
  | [] => none

/-- The field reader of the text conversion: an optional opening brace, then the
groups of 8, 4, 4, 4 and 12 hexadecimal digits separated by `-`. What
follows the last digit is not looked at. -/
def uuidFromHex (src : List Char) : Option Nat :=
  let src := match src with
    | c :: rest => if c = Char.ofNat 123 then rest else c :: rest
    | [] => []
  match fromHex 8 0 src with
  | none => none
  | some (v, src) =>
  match dash src with
  | none => none
  | some src =>
  match fromHex 4 v src with
  | none => none
  | some (v, src) =>
  match dash src with
  | none => none
  | some src =>
  match fromHex 4 v src with
  | none => none
  | some (v, src) =>
  match dash src with
  | none => none
  | some src =>
  match fromHex 4 v src with
  | none => none
  | some (v, src) =>
  match dash src with
  | none => none
  | some src =>
  match fromHex 12 v src with
  | none => none
  | some (v, _) => some v

/-- Whether a text is read as a UUID: at least 36 characters (37 when it opens
with a brace) and the five hexadecimal groups in place. `none` when it is not. -/
def QUuid.parse (text : String) : Option QUuid :=
  let cs := text.toList
  if cs.length < 36 then none
  else if cs.head? = some (Char.ofNat 123) ∧ cs.length < 37 then none
  else (uuidFromHex cs).map QUuid.mk

/-- Conversion `QUuid::QUuid(const QString&)`: the parsed UUID, and the null UUID
when the conversion fails. -/
def QUuid.fromString (text : String) : QUuid :=
  (QUuid.parse text).getD QUuid.null

/-- One lower-case hexadecimal digit. -/
def hexDigit (d : Nat) : Char :=
  if d < 10 then Char.ofNat (48 + d) else Char.ofNat (87 + d)

/-- The `n` lowest hexadecimal digits of `v`, most significant first. -/
def toHex : Nat → Nat → List Char
  | 0, _ => []
  | n + 1, v => toHex n (v / 16) ++ [hexDigit (v % 16)]

/-- Text form `QUuid::toString()`: braces around the groups of 8, 4, 4, 4 and 12
lower-case hexadecimal digits. -/
def QUuid.toString (u : QUuid) : String :=
  String.mk ([Char.ofNat 123] ++ toHex 8 (u.val / 2 ^ 96) ++ ['-'] ++ toHex 4 (u.val / 2 ^ 80)
    ++ ['-'] ++ toHex 4 (u.val / 2 ^ 64) ++ ['-'] ++ toHex 4 (u.val / 2 ^ 48)
    ++ ['-'] ++ toHex 12 u.val ++ [Char.ofNat 125])

/-! ## Framework values: QHash -/

/-- A hash table `QHash<K, V>`, held as the list of its entries. One key has one
value: when a key stands more than once in the list, its first entry is the
one the table holds. The operations below never produce such a list from a
list without one. -/
structure QHash (K V : Type) where
  entries : List (K × V)
  deriving DecidableEq, Repr

namespace QHash

variable {K V : Type} [DecidableEq K]

/-- The empty table. -/
def empty : QHash K V := ⟨[]⟩

/-- The keys, in entry order. -/
def keys (m : QHash K V) : List K := m.entries.map Prod.fst

/-- The values, in entry order: what `foreach` over the table visits. -/
def values (m : QHash K V) : List V := m.entries.map Prod.snd

/-- Membership test `contains(key)`. -/
def contains (m : QHash K V) (k : K) : Bool := m.entries.any (fun e => decide (e.1 = k))

/-- The value stored under `key`, if any. -/
def find? (m : QHash K V) (k : K) : Option V :=
  (m.entries.find? (fun e => decide (e.1 = k))).map Prod.snd

/-- Lookup `value(key)`: the stored value, or a default-constructed one. -/
def value [Inhabited V] (m : QHash K V) (k : K) : V := (m.find? k).getD default

/-- Number of items `count()`: the number of distinct keys. -/
def count (m : QHash K V) : Nat := m.keys.dedup.length

/-- Emptiness test `isEmpty()`. -/
def isEmpty (m : QHash K V) : Bool := m.entries.isEmpty

/-- Removal `remove(key)`: drops the key with its value. -/
def remove (m : QHash K V) (k : K) : QHash K V :=
  ⟨m.entries.filter (fun e => !decide (e.1 = k))⟩

/-- Insertion `insert(key, value)`: a value already stored under the key is replaced. -/
def insert (m : QHash K V) (k : K) (v : V) : QHash K V :=
  ⟨(k, v) :: (m.remove k).entries⟩

/-- Applies `f` to every stored value, keys kept: a `foreach` that calls a member
function on each value. -/
def mapValues (f : V → V) (m : QHash K V) : QHash K V :=
  ⟨m.entries.map (fun e => (e.1, f e.2))⟩

end QHash

/-! ## Framework values: QDomElement -/

/-- A DOM element handle (`QDomElement`). `null` is the null element; an element
has an identity `id` (two handles are the same node when their ids agree), a
tag name, its attributes and its child elements in document order. -/
inductive QDomElement where
  | null : QDomElement
  | elem (id : Nat) (tagName : String) (attrs : List (String × String))
      (childElements : List QDomElement) : QDomElement

namespace QDomElement

/-- Null test `isNull()`. -/
def isNull : QDomElement → Bool
  | null => true
  | elem _ _ _ _ => false

/-- Tag name `nodeName()`; empty for the null element. -/
def nodeName : QDomElement → String
  | null => ""
  | elem _ t _ _ => t

/-- Child elements, in order; none for the null element. -/
def children : QDomElement → List QDomElement
  | null => []
  | elem _ _ _ cs => cs

/-- Whether the attribute is present, `hasAttribute(name)`. -/
def hasAttribute : QDomElement → String → Bool
  | null, _ => false
  | elem _ _ as _, name => as.any (fun a => decide (a.1 = name))

/-- Attribute read `attribute(name)` (named `getAttribute` here, `attribute` being
a keyword): the value, or the empty text when the attribute is absent or the
element is null. -/
def getAttribute : QDomElement → String → String
  | null, _ => ""
  | elem _ _ as _, name => ((as.find? (fun a => decide (a.1 = name))).map Prod.snd).getD ""

/-- Replaces the value of the first attribute called `name`, or adds the attribute
at the end when there is none. -/
def setAttr (name value : String) : List (String × String) → List (String × String)
  | [] => [(name, value)]
  | a :: as => if a.1 = name then (name, value) :: as else a :: setAttr name value as

/-- Attribute write `setAttribute(name, value)`: adds the attribute, or replaces its
value when it exists; nothing happens on the null element. -/
def setAttribute : QDomElement → String → String → QDomElement
  | null, _, _ => null
  | elem i t as cs, name, value => elem i t (setAttr name value as) cs

/-- Whether two handles refer to the same node. -/
def sameNode : QDomElement → QDomElement → Bool
  | elem i _ _ _, elem j _ _ _ => i == j
  | _, _ => false

/-- First child with the given tag, `firstChildElement(tagName)`; null when there is none. -/
def firstChildElement (e : QDomElement) (tagName : String) : QDomElement :=
  (e.children.find? (fun c => decide (c.nodeName = tagName))).getD null

/-- All children with the given tag, in document order: the elements visited by
starting at `firstChildElement(tagName)` and following
`nextSiblingElement(tagName)` until the null element. -/
def childElementsNamed (e : QDomElement) (tagName : String) : List QDomElement :=
  e.children.filter (fun c => decide (c.nodeName = tagName))

/-- Append `appendChild(newChild)`, giving the parent afterwards and the returned
handle. The new child becomes the last child; when it already is a child of
this node it changes its position. The returned handle is `newChild`, or
null (nothing changed) when the parent or the new child is null. -/
def appendChild : QDomElement → QDomElement → QDomElement × QDomElement
  | elem i t as cs, elem j tj aj cj =>
    (elem i t as (cs.filter (fun c => !sameNode c (elem j tj aj cj)) ++ [elem j tj aj cj]),
      elem j tj aj cj)
  | parent, _ => (parent, null)

/-- Removal `removeChild(oldChild)`, giving the parent afterwards and the returned
handle: `oldChild` when it was a child of this node, and null (nothing
changed) when it was not or when either handle is null. -/
def removeChild : QDomElement → QDomElement → QDomElement × QDomElement
  | elem i t as cs, elem j tj aj cj =>
    if cs.any (fun c => sameNode c (elem j tj aj cj)) then
      (elem i t as (cs.filter (fun c => !sameNode c (elem j tj aj cj))), elem j tj aj cj)
    else (elem i t as cs, null)
  | parent, _ => (parent, null)

end QDomElement

/-- A DOM document (`QDomDocument`) as far as element creation goes: whether it
is null, and the identity the next created node receives. -/
structure QDomDocument where
  isNull : Bool
  nextId : Nat
  deriving DecidableEq, Repr

/-- Element creation `createElement(tagName)`: a new element without attributes or
children, or the null element on a null document. -/
def QDomDocument.createElement (doc : QDomDocument) (tagName : String) :
    QDomElement × QDomDocument :=
  if doc.isNull then (QDomElement.null, doc)
  else (QDomElement.elem doc.nextId tagName [] [], { doc with nextId := doc.nextId + 1 })

/-! ## The library catalog -/

namespace library

/-- Modelled from the spec: a signal of a component definition
(`library/genericcomponent.h`, another file of the project), known by
its identifier. -/
structure GenCompSignal where
  uuid : QUuid
  name : String
  deriving DecidableEq, Repr

/-- Modelled from the spec: one placement slot of a symbol variant, the pair of the
slot identifier and the symbol identifier expected in that slot. -/
structure GenCompSymbVarItem where
  uuid : QUuid
  symbolUuid : QUuid
  deriving DecidableEq, Repr

/-- Modelled from the spec: a symbol variant of a component definition, with its
placement slots. -/
structure GenCompSymbVar where
  uuid : QUuid
  items : List GenCompSymbVarItem
  deriving DecidableEq, Repr

/-- Modelled from the spec: slot lookup `getItemByUuid`, the slot of the variant
with the given identifier, if there is one. -/
def GenCompSymbVar.getItemByUuid (v : GenCompSymbVar) (u : QUuid) : Option GenCompSymbVarItem :=
  v.items.find? (fun i => decide (i.uuid = u))

/-- Modelled from the spec: a component definition of the library catalog, with
its identifier, its signals by identifier and its symbol variants. -/
structure GenericComponent where
  uuid : QUuid
  signals : QHash QUuid GenCompSignal
  symbolVariants : List GenCompSymbVar
  deriving DecidableEq, Repr

/-- Accessor `getSignals()`. -/
def GenericComponent.getSignals (g : GenericComponent) : QHash QUuid GenCompSignal := g.signals

/-- Modelled from the spec: variant lookup `getSymbolVariantByUuid`, the variant of
the definition with the given identifier, if there is one. -/
def GenericComponent.getSymbolVariantByUuid (g : GenericComponent) (u : QUuid) :
    Option GenCompSymbVar :=
  g.symbolVariants.find? (fun v => decide (v.uuid = u))

end library

open library

/-- Modelled from the spec: the library catalog of the project
(`project/library/projectlibrary.h`, another file of the project), the
component definitions it holds. -/
structure ProjectLibrary where
  genericComponents : List GenericComponent
  deriving DecidableEq, Repr

/-- Modelled from the spec: definition lookup `getGenericComponent`, the definition
with the given identifier, if the catalog has one. -/
def ProjectLibrary.getGenericComponent (l : ProjectLibrary) (u : QUuid) :
    Option GenericComponent :=
  l.genericComponents.find? (fun g => decide (g.uuid = u))

/-- Modelled from the spec: the owning circuit (`circuit.h`, another file of the
project), as far as the class reads it: `getProject().getLibrary()`. -/
structure Circuit where
  library : ProjectLibrary
  deriving DecidableEq, Repr

/-! ## The signal instance -/

/-- Modelled from the spec: a signal instance (`gencompsignalinstance.h`, another
file of the project). It is bound to one signal of a component
definition (`getCompSignal()`), may be linked to a net signal
(`getNetSignal()`, `none` being the null pointer), and is notified of the
attach and detach of its owner; the two counters record how often. -/
structure GenCompSignalInstance where
  mGenCompSignal : GenCompSignal
  mNetSignal : Option Nat
  attachNotifications : Nat
  detachNotifications : Nat
  deriving DecidableEq, Repr

namespace GenCompSignalInstance

/-- Accessor `getCompSignal()`. -/
def getCompSignal (s : GenCompSignalInstance) : GenCompSignal := s.mGenCompSignal

/-- Accessor `getNetSignal()`. -/
def getNetSignal (s : GenCompSignalInstance) : Option Nat := s.mNetSignal

/-- Modelled from the spec: the attach notification `addToCircuit()`, which always
succeeds. -/
def addToCircuit (s : GenCompSignalInstance) : GenCompSignalInstance :=
  { s with attachNotifications := s.attachNotifications + 1 }

/-- Modelled from the spec: the detach notification `removeFromCircuit()`, which
always succeeds. -/
def removeFromCircuit (s : GenCompSignalInstance) : GenCompSignalInstance :=
  { s with detachNotifications := s.detachNotifications + 1 }

end GenCompSignalInstance

/-- The constructor of the signal instance,
`GenCompSignalInstance(circuit, genCompInstance, domElement)`, whose body is
in another file of the project: it is a parameter of the development. It
sees the circuit, the component definition of the owning instance and the
`map` element, and either yields a signal instance or throws (the text is
what it reports). -/
abbrev SignalConstructor :=
  Circuit → GenericComponent → QDomElement → Except String GenCompSignalInstance

/-! ## Exceptions -/

/-- The throw sites of the class, under the names the specification gives them.
Line numbers refer to genericcomponentinstance.cpp.

* constructor: `MalformedIdentifier` (49), `EmptyName` (57),
  `UnknownComponentDefinition` (66), `UnknownSymbolVariant` (74),
  `DuplicateSignalMapping` (88), `SignalCountMismatch` (97);
  `SignalInstanceFailed` is an exception leaving the signal-instance
  constructor called at line 85;
* `setName`: `EmptyName` (121);
* `addToCircuit`: `AlreadyAttached` (136), `InvalidParent` (141),
  `NodeInsertFailed` (144);
* `removeFromCircuit`: `NotAttached` (156), `SignalStillConnected` (164),
  `InvalidParent` (168), `NodeRemoveFailed` (171);
* `registerSymbolInstance`: `NotAttached` (185), `UnknownSlot` (190),
  `SymbolMismatch` (196), `SlotAlreadyOccupied` (202);
* `unregisterSymbolInstance`: `NotAttached` (213), `SlotNotRegistered` (215),
  `HandleMismatch` (217);
* `create`: `NodeCreateFailed` (235). -/
inductive ErrorKind where
  | MalformedIdentifier
  | EmptyName
  | UnknownComponentDefinition
  | UnknownSymbolVariant
  | SignalInstanceFailed
  | DuplicateSignalMapping
  | SignalCountMismatch
  | AlreadyAttached
  | InvalidParent
  | NodeInsertFailed
  | NotAttached
  | SignalStillConnected
  | NodeRemoveFailed
  | UnknownSlot
  | SymbolMismatch
  | SlotAlreadyOccupied
  | SlotNotRegistered
  | HandleMismatch
  | NodeCreateFailed
  deriving DecidableEq, Repr

/-- A thrown exception: the throw site and the debug message passed to it (the
third constructor argument of `RuntimeError` / `LogicError`; empty when the
site passes none). -/
structure Exception where
  kind : ErrorKind
  debugMsg : String
  deriving DecidableEq, Repr

/-- Whether the exception is a `LogicError` (a precondition broken by the caller)
rather than a `RuntimeError` (bad data). -/
def ErrorKind.isLogicError : ErrorKind → Bool
  | .AlreadyAttached | .InvalidParent | .NodeInsertFailed | .NotAttached
  | .SignalStillConnected | .NodeRemoveFailed | .SlotNotRegistered | .HandleMismatch
  | .NodeCreateFailed => true
  | _ => false

/-! ## The class -/

/-- The member variables of `GenericComponentInstance`. A symbol-instance pointer
is `none` for the null pointer and `some a` for the object at `a`. -/
structure GenericComponentInstance where
  mCircuit : Circuit
  mDomElement : QDomElement
  mAddedToCircuit : Bool
  mUuid : QUuid
  mName : String
  mGenComp : GenericComponent
  mGenCompSymbVar : GenCompSymbVar
  mSignals : QHash QUuid GenCompSignalInstance
  mSymbolInstances : QHash QUuid (Option Nat)

/-- What a member function leaves behind: whether it returned or threw, and the
object afterwards. -/
structure Outcome where
  result : Except Exception Unit
  self : GenericComponentInstance

/-- What `addToCircuit` / `removeFromCircuit` leave behind: whether the call
returned or threw, the object afterwards, and the parent element (passed by
reference) afterwards. -/
structure TreeOutcome where
  result : Except Exception Unit
  self : GenericComponentInstance
  parent : QDomElement

namespace GenericComponentInstance

/-- The `map` elements the constructor walks through (lines 82 to 94): the children
called `map` of the first child called `signal_mapping`. -/
def mapElements (domElement : QDomElement) : List QDomElement :=
  (domElement.firstChildElement "signal_mapping").childElementsNamed "map"

/-- The loop of the constructor (lines 83 to 94) over the remaining `map`
elements, `mSignals` being the table filled so far. -/
def loadSignals (newSignal : QDomElement → Except String GenCompSignalInstance) :
    List QDomElement → QHash QUuid GenCompSignalInstance →
      Except Exception (QHash QUuid GenCompSignalInstance)
  | [], mSignals => .ok mSignals
  | tmpNode :: rest, mSignals =>
    match newSignal tmpNode with
    | .error msg => .error ⟨.SignalInstanceFailed, msg⟩
    | .ok signal =>
      if mSignals.contains signal.getCompSignal.uuid then
        .error ⟨.DuplicateSignalMapping, signal.getCompSignal.uuid.toString⟩
      else
        loadSignals newSignal rest (mSignals.insert signal.getCompSignal.uuid signal)

/-- The constructor `GenericComponentInstance(circuit, domElement)` (lines 40 to
103): the object, or the exception it throws. -/
def new (newSignal : SignalConstructor) (circuit : Circuit) (domElement : QDomElement) :
    Except Exception GenericComponentInstance :=
  let mUuid := QUuid.fromString (domElement.getAttribute "uuid")
  if mUuid.isNull then
    .error ⟨.MalformedIdentifier, domElement.getAttribute "uuid"⟩
  else
    let mName := domElement.getAttribute "name"
    if mName.isEmpty then
      .error ⟨.EmptyName, mUuid.toString⟩
    else
      match circuit.library.getGenericComponent
          (QUuid.fromString (domElement.getAttribute "generic_component")) with
      | none => .error ⟨.UnknownComponentDefinition, domElement.getAttribute "generic_component"⟩
      | some mGenComp =>
        match mGenComp.getSymbolVariantByUuid
            (QUuid.fromString (domElement.getAttribute "symbol_variant")) with
        | none => .error ⟨.UnknownSymbolVariant, domElement.getAttribute "symbol_variant"⟩
        | some mGenCompSymbVar =>
          match loadSignals (newSignal circuit mGenComp) (mapElements domElement) QHash.empty with
          | .error e => .error e
          | .ok mSignals =>
            if mSignals.count ≠ mGenComp.getSignals.count then
              .error ⟨.SignalCountMismatch,
                toString mSignals.count ++ "!=" ++ toString mGenComp.getSignals.count⟩
            else
              .ok { mCircuit := circuit, mDomElement := domElement, mAddedToCircuit := false,
                    mUuid := mUuid, mName := mName, mGenComp := mGenComp,
                    mGenCompSymbVar := mGenCompSymbVar, mSignals := mSignals,
                    mSymbolInstances := QHash.empty }

/-- The setter `setName(name)` (lines 117 to 127). -/
def setName (self : GenericComponentInstance) (name : String) : Outcome :=
  if name.isEmpty then
    ⟨.error ⟨.EmptyName, name⟩, self⟩
  else
    let self := { self with mDomElement := self.mDomElement.setAttribute "name" name }
    let self := { self with mName := name }
    ⟨.ok (), self⟩

/-- The member function `addToCircuit(addNode, parent)` (lines 133 to 151). -/
def addToCircuit (self : GenericComponentInstance) (addNode : Bool) (parent : QDomElement) :
    TreeOutcome :=
  if self.mAddedToCircuit then
    ⟨.error ⟨.AlreadyAttached, ""⟩, self, parent⟩
  else if addNode ∧ parent.nodeName ≠ "generic_component_instances" then
    ⟨.error ⟨.InvalidParent, parent.nodeName⟩, self, parent⟩
  else if addNode ∧ (parent.appendChild self.mDomElement).2.isNull then
    ⟨.error ⟨.NodeInsertFailed, ""⟩, self, (parent.appendChild self.mDomElement).1⟩
  else
    let parent := if addNode then (parent.appendChild self.mDomElement).1 else parent
    let self := { self with mSignals := self.mSignals.mapValues GenCompSignalInstance.addToCircuit }
    let self := { self with mAddedToCircuit := true }
    ⟨.ok (), self, parent⟩

/-- The member function `removeFromCircuit(removeNode, parent)` (lines 153 to 178). -/
def removeFromCircuit (self : GenericComponentInstance) (removeNode : Bool)
    (parent : QDomElement) : TreeOutcome :=
  if !self.mAddedToCircuit then
    ⟨.error ⟨.NotAttached, ""⟩, self, parent⟩
  else if removeNode ∧ self.mSignals.values.any (fun signal => signal.getNetSignal.isSome) then
    ⟨.error ⟨.SignalStillConnected, ""⟩, self, parent⟩
  else if removeNode ∧ parent.nodeName ≠ "generic_component_instances" then
    ⟨.error ⟨.InvalidParent, parent.nodeName⟩, self, parent⟩
  else if removeNode ∧ (parent.removeChild self.mDomElement).2.isNull then
    ⟨.error ⟨.NodeRemoveFailed, ""⟩, self, (parent.removeChild self.mDomElement).1⟩
  else
    let parent := if removeNode then (parent.removeChild self.mDomElement).1 else parent
    let self :=
      { self with mSignals := self.mSignals.mapValues GenCompSignalInstance.removeFromCircuit }
    let self := { self with mAddedToCircuit := false }
    ⟨.ok (), self, parent⟩

/-- The member function `registerSymbolInstance(itemUuid, symbolUuid, instance)`
(lines 180 to 207). -/
def registerSymbolInstance (self : GenericComponentInstance) (itemUuid symbolUuid : QUuid)
    (inst : Option Nat) : Outcome :=
  if !self.mAddedToCircuit then
    ⟨.error ⟨.NotAttached, itemUuid.toString⟩, self⟩
  else
    match self.mGenCompSymbVar.getItemByUuid itemUuid with
    | none => ⟨.error ⟨.UnknownSlot, itemUuid.toString⟩, self⟩
    | some item =>
      if symbolUuid ≠ item.symbolUuid then
        ⟨.error ⟨.SymbolMismatch, symbolUuid.toString⟩, self⟩
      else if self.mSymbolInstances.contains item.uuid then
        ⟨.error ⟨.SlotAlreadyOccupied, item.uuid.toString⟩, self⟩
      else
        ⟨.ok (), { self with mSymbolInstances := self.mSymbolInstances.insert itemUuid inst }⟩

/-- The member function `unregisterSymbolInstance(itemUuid, symbol)` (lines 209 to
220). -/
def unregisterSymbolInstance (self : GenericComponentInstance) (itemUuid : QUuid)
    (symbol : Option Nat) : Outcome :=
  if !self.mAddedToCircuit then
    ⟨.error ⟨.NotAttached, itemUuid.toString⟩, self⟩
  else if !self.mSymbolInstances.contains itemUuid then
    ⟨.error ⟨.SlotNotRegistered, itemUuid.toString⟩, self⟩
  else if symbol ≠ self.mSymbolInstances.value itemUuid then
    ⟨.error ⟨.HandleMismatch, itemUuid.toString⟩, self⟩
  else
    ⟨.ok (), { self with mSymbolInstances := self.mSymbolInstances.remove itemUuid }⟩

/-- The node `create` fills in (lines 233 to 241): a new element `instance` of the
document with the four attributes, `uuid` being the text of the freshly
generated identifier. -/
def createNode (doc : QDomDocument) (fresh genericComponent symbolVariant : QUuid)
    (name : String) : QDomElement :=
  ((((doc.createElement "instance").1.setAttribute "uuid" fresh.toString).setAttribute
    "name" name).setAttribute "generic_component" genericComponent.toString).setAttribute
    "symbol_variant" symbolVariant.toString

/-- The static function `create(circuit, doc, genericComponent, symbolVariant, name)`
(lines 226 to 245); `fresh` is the identifier `QUuid::createUuid()` hands out. -/
def create (newSignal : SignalConstructor) (circuit : Circuit) (doc : QDomDocument)
    (fresh genericComponent symbolVariant : QUuid) (name : String) :
    Except Exception GenericComponentInstance :=
  if (doc.createElement "instance").1.isNull then
    .error ⟨.NodeCreateFailed, ""⟩
  else
    new newSignal circuit (createNode doc fresh genericComponent symbolVariant name)

end GenericComponentInstance

/-! ## Reading outcomes -/

/-- The throw site of a call that threw; `none` when the call returned. -/
def errorKind? {α : Type} : Except Exception α → Option ErrorKind
  | .error e => some e.kind
  | .ok _ => none

/-- The debug message of a call that threw; `none` when the call returned. -/
def debugMsg? {α : Type} : Except Exception α → Option String
  | .error e => some e.debugMsg
  | .ok _ => none

/-- Whether a call returned normally. -/
def returned {α : Type} : Except Exception α → Bool
  | .error _ => false
  | .ok _ => true

/-! ## The first four checks of the constructor, on their own -/

/-- The throw sites of the first four checks. -/
def headerKinds : List ErrorKind :=
  [.MalformedIdentifier, .EmptyName, .UnknownComponentDefinition, .UnknownSymbolVariant]

/-- Lines 46 to 77 of the constructor on their own: the site of the first of the
four checks that throws, `none` when all four pass. -/
def headerCheck (circuit : Circuit) (domElement : QDomElement) : Option ErrorKind :=
  if (QUuid.fromString (domElement.getAttribute "uuid")).isNull then
    some .MalformedIdentifier
  else if (domElement.getAttribute "name").isEmpty then
    some .EmptyName
  else
    match circuit.library.getGenericComponent
        (QUuid.fromString (domElement.getAttribute "generic_component")) with
    | none => some .UnknownComponentDefinition
    | some mGenComp =>
      match mGenComp.getSymbolVariantByUuid
          (QUuid.fromString (domElement.getAttribute "symbol_variant")) with
      | none => some .UnknownSymbolVariant
      | some _ => none

/-! ## A sample project

The definition `D` with the signals `A` and `B` and the variant `V`, whose slot
`S1` expects the symbol `SYM1`; a signal constructor; nodes referring to them. -/

namespace Sample

/-- Signal identifier `A`. -/
def sigA : QUuid := ⟨0xA⟩
/-- Signal identifier `B`. -/
def sigB : QUuid := ⟨0xB⟩
/-- Identifier of the definition `D`. -/
def idD : QUuid := ⟨0xD⟩
/-- Identifier of the variant `V`. -/
def idV : QUuid := ⟨0xF⟩
/-- Slot identifier `S1`. -/
def slotS1 : QUuid := ⟨0x51⟩
/-- Symbol identifier `SYM1`. -/
def sym1 : QUuid := ⟨0x1001⟩
/-- Symbol identifier `SYM2`. -/
def sym2 : QUuid := ⟨0x1002⟩
/-- Identifier of the instance. -/
def idInst : QUuid := ⟨0x77⟩

/-- The variant `V`. -/
def varV : GenCompSymbVar := ⟨idV, [⟨slotS1, sym1⟩]⟩

/-- The definition `D`. -/
def compD : GenericComponent :=
  ⟨idD, ⟨[(sigA, ⟨sigA, "A"⟩), (sigB, ⟨sigB, "B"⟩)]⟩, [varV]⟩

/-- A circuit whose library holds `D`. -/
def circuit : Circuit := ⟨⟨[compD]⟩⟩

/-- A signal constructor: it binds the `map` element to the signal of the
definition named by the attribute `comp_signal`, unlinked, and throws when
the definition has no such signal. -/
def newSignal : SignalConstructor := fun _ genComp domElement =>
  match genComp.getSignals.find? (QUuid.fromString (domElement.getAttribute "comp_signal")) with
  | none => .error (domElement.getAttribute "comp_signal")
  | some sig => .ok ⟨sig, none, 0, 0⟩

/-- A `map` element for the signal `u`. -/
def mapElement (id : Nat) (u : QUuid) : QDomElement :=
  .elem id "map" [("comp_signal", u.toString)] []

/-- An `instance` node (node 7) with the given `uuid` and `name` texts, referring
to `D` and `V`, with the given `map` elements. -/
def node (uuid name : String) (maps : List QDomElement) : QDomElement :=
  .elem 7 "instance"
    [("uuid", uuid), ("name", name), ("generic_component", idD.toString),
      ("symbol_variant", idV.toString)]
    [.elem 8 "signal_mapping" [] maps]

/-- The node with the mapping `A`, `B`. -/
def nodeAB : QDomElement := node idInst.toString "R1" [mapElement 9 sigA, mapElement 10 sigB]

/-- The node with the mapping `A` only. -/
def nodeA : QDomElement := node idInst.toString "R1" [mapElement 9 sigA]

/-- The node with the mapping `A`, `A`. -/
def nodeAA : QDomElement := node idInst.toString "R1" [mapElement 9 sigA, mapElement 10 sigA]

/-- The node whose `uuid` is the text of the all-zero UUID, with mapping `A`, `B`. -/
def nodeZero : QDomElement :=
  node QUuid.null.toString "R1" [mapElement 9 sigA, mapElement 10 sigB]

/-- The object loaded from `nodeAB`, written out. -/
def loaded : GenericComponentInstance :=
  { mCircuit := circuit, mDomElement := nodeAB, mAddedToCircuit := false, mUuid := idInst,
    mName := "R1", mGenComp := compD, mGenCompSymbVar := varV,
    mSignals := ⟨[(sigB, ⟨⟨sigB, "B"⟩, none, 0, 0⟩), (sigA, ⟨⟨sigA, "A"⟩, none, 0, 0⟩)]⟩,
    mSymbolInstances := QHash.empty }

/-- The object `loaded` once attached: every signal notified, flag set. -/
def attached : GenericComponentInstance :=
  { loaded with
    mAddedToCircuit := true,
    mSignals := ⟨[(sigB, ⟨⟨sigB, "B"⟩, none, 1, 0⟩), (sigA, ⟨⟨sigA, "A"⟩, none, 1, 0⟩)]⟩ }

/-- The object `attached` with the signal `A` linked to the net signal 5. -/
def linked : GenericComponentInstance :=
  { attached with
    mSignals := ⟨[(sigB, ⟨⟨sigB, "B"⟩, none, 1, 0⟩), (sigA, ⟨⟨sigA, "A"⟩, some 5, 1, 0⟩)]⟩ }

/-- Signal identifier `C`, which is not a signal of `D`. -/
def sigC : QUuid := ⟨0xC⟩

/-- The node with the mapping `A`, `C`, `A`. -/
def nodeACA : QDomElement :=
  node idInst.toString "R1" [mapElement 9 sigA, mapElement 10 sigC, mapElement 11 sigA]

/-- The node with the same three entries in the order `A`, `A`, `C`. -/
def nodeAAC : QDomElement :=
  node idInst.toString "R1" [mapElement 9 sigA, mapElement 11 sigA, mapElement 10 sigC]

/-- A container element (node 1) holding the given children. -/
def container (children : List QDomElement) : QDomElement :=
  .elem 1 "generic_component_instances" [] children

end Sample

/-! ## Sequences of calls -/

/-- One call of a member function on an object, with its arguments. -/
inductive Call where
  | setName (name : String)
  | addToCircuit (addNode : Bool) (parent : QDomElement)
  | removeFromCircuit (removeNode : Bool) (parent : QDomElement)
  | registerSymbolInstance (itemUuid symbolUuid : QUuid) (inst : Option Nat)
  | unregisterSymbolInstance (itemUuid : QUuid) (symbol : Option Nat)

/-- What the call leaves behind: whether it returned or threw. -/
def Call.result (self : GenericComponentInstance) : Call → Except Exception Unit
  | .setName name => (self.setName name).result
  | .addToCircuit addNode parent => (self.addToCircuit addNode parent).result
  | .removeFromCircuit removeNode parent => (self.removeFromCircuit removeNode parent).result
  | .registerSymbolInstance itemUuid symbolUuid inst =>
    (self.registerSymbolInstance itemUuid symbolUuid inst).result
  | .unregisterSymbolInstance itemUuid symbol =>
    (self.unregisterSymbolInstance itemUuid symbol).result

/-- What the call leaves behind: the object afterwards. -/
def Call.after (self : GenericComponentInstance) : Call → GenericComponentInstance
  | .setName name => (self.setName name).self
  | .addToCircuit addNode parent => (self.addToCircuit addNode parent).self
  | .removeFromCircuit removeNode parent => (self.removeFromCircuit removeNode parent).self
  | .registerSymbolInstance itemUuid symbolUuid inst =>
    (self.registerSymbolInstance itemUuid symbolUuid inst).self
  | .unregisterSymbolInstance itemUuid symbol =>
    (self.unregisterSymbolInstance itemUuid symbol).self

/-- The object after a sequence of calls, made one after the other, whether they
return or throw. -/
def runCalls : GenericComponentInstance → List Call → GenericComponentInstance
  | self, [] => self
  | self, call :: calls => runCalls (call.after self) calls

/-- The attach and detach calls of a sequence that returned, in order: `true` for
an `addToCircuit` that returned, `false` for a `removeFromCircuit` that returned. -/
def attachDetachEvents : GenericComponentInstance → List Call → List Bool
  | _, [] => []
  | self, call :: calls =>
    (match call, returned (call.result self) with
      | .addToCircuit _ _, true => [true]
      | .removeFromCircuit _ _, true => [false]
      | _, _ => []) ++ attachDetachEvents (call.after self) calls

/-- Whether a list of events alternates, beginning with `first`. -/
def alternatesFrom : Bool → List Bool → Bool
  | _, [] => true
  | first, event :: events => (event == first) && alternatesFrom (!first) events

/-- Whether every `removeFromCircuit` of the sequence that returns is made on an
object with an empty symbol-instance registry. -/
def detachesWithEmptyRegistry : GenericComponentInstance → List Call → Bool
  | _, [] => true
  | self, call :: calls =>
    (match call with
      | .removeFromCircuit _ _ =>
        !returned (call.result self) || self.mSymbolInstances.isEmpty
      | _ => true) && detachesWithEmptyRegistry (call.after self) calls

/-! ## Facts about the framework values -/

namespace QHash

variable {K V : Type} [DecidableEq K]

theorem contains_iff_mem_keys (m : QHash K V) (k : K) : m.contains k = true ↔ k ∈ m.keys := by
  simp only [contains, keys, List.any_eq_true, List.mem_map, decide_eq_true_eq]

theorem contains_eq_false_iff (m : QHash K V) (k : K) : m.contains k = false ↔ k ∉ m.keys := by
  rw [← contains_iff_mem_keys, Bool.not_eq_true]

theorem filter_ne_of_not_contains (es : List (K × V)) (k : K)
    (h : (QHash.mk es).contains k = false) :
    es.filter (fun e => !decide (e.1 = k)) = es := by
  rw [List.filter_eq_self]
  intro e he
  by_cases hk : e.1 = k
  · have : (QHash.mk es).contains k = true := by
      simp only [contains, List.any_eq_true, decide_eq_true_eq]
      exact ⟨e, he, hk⟩
    rw [h] at this
    exact absurd this Bool.false_ne_true
  · simp [hk]

theorem remove_of_not_contains (m : QHash K V) (k : K) (h : m.contains k = false) :
    m.remove k = m := by
  cases m with
  | mk es => simp only [remove, filter_ne_of_not_contains es k h]

theorem remove_insert_of_not_contains (m : QHash K V) (k : K) (v : V)
    (h : m.contains k = false) : (m.insert k v).remove k = m := by
  cases m with
  | mk es =>
    have hr := filter_ne_of_not_contains es k h
    simp only [insert, remove, List.filter_cons, decide_True, Bool.not_true,
      Bool.false_eq_true, ↓reduceIte, hr]

theorem keys_insert_of_not_contains (m : QHash K V) (k : K) (v : V)
    (h : m.contains k = false) : (m.insert k v).keys = k :: m.keys := by
  simp [insert, keys, remove_of_not_contains m k h]

theorem find?_filter_ne (es : List (K × V)) (k k' : K) (hk : k' ≠ k) :
    (es.filter (fun e => !decide (e.1 = k))).find? (fun e => decide (e.1 = k')) =
      es.find? (fun e => decide (e.1 = k')) := by
  induction es with
  | nil => rfl
  | cons e es ih =>
    by_cases h2 : e.1 = k
    · have h1 : ¬ e.1 = k' := fun h => hk (h.symm.trans h2)
      rw [List.filter_cons, List.find?_cons]
      simp only [h2, decide_True, Bool.not_true, Bool.false_eq_true, ↓reduceIte]
      rw [← h2]
      simp only [h1, decide_False]
      rw [h2]
      exact ih
    · rw [List.filter_cons]
      simp only [h2, decide_False, Bool.not_false, ↓reduceIte, List.find?_cons]
      rw [ih]

theorem find?_filter_self (es : List (K × V)) (k : K) :
    (es.filter (fun e => !decide (e.1 = k))).find? (fun e => decide (e.1 = k)) = none := by
  rw [List.find?_eq_none]
  intro e he
  have := (List.mem_filter.mp he).2
  simpa using this

theorem find?_insert (m : QHash K V) (k : K) (v : V) (k' : K) :
    (m.insert k v).find? k' = if k' = k then some v else m.find? k' := by
  cases m with
  | mk es =>
    by_cases hk : k' = k
    · subst hk
      simp [insert, find?, remove]
    · have hk2 : ¬ k = k' := fun h => hk h.symm
      simp only [insert, find?, remove, List.find?_cons, hk2, decide_False, hk, ↓reduceIte]
      rw [find?_filter_ne es k k' hk]

theorem find?_remove (m : QHash K V) (k k' : K) :
    (m.remove k).find? k' = if k' = k then none else m.find? k' := by
  cases m with
  | mk es =>
    by_cases hk : k' = k
    · subst hk
      simp only [find?, remove, find?_filter_self, Option.map_none', ↓reduceIte]
    · simp only [find?, remove, hk, ↓reduceIte]
      rw [find?_filter_ne es k k' hk]

theorem count_of_nodup (m : QHash K V) (h : m.keys.Nodup) : m.count = m.keys.length := by
  simp [count, List.Nodup.dedup h]

end QHash

/-! ## Facts about the constructor loop -/

namespace GenericComponentInstance

/-- When the signal constructor succeeds on every remaining `map` element and some
signal is bound twice (or is in the table already), the loop throws at line 88. -/
theorem loadSignals_duplicate (f : QDomElement → Except String GenCompSignalInstance)
    (key : QDomElement → QUuid) :
    ∀ (es : List QDomElement) (m : QHash QUuid GenCompSignalInstance),
      (∀ e ∈ es, ∃ s, f e = .ok s ∧ s.getCompSignal.uuid = key e) →
      m.keys.Nodup → ¬ (es.map key ++ m.keys).Nodup →
      ∃ msg, loadSignals f es m = .error ⟨.DuplicateSignalMapping, msg⟩ := by
  intro es
  induction es with
  | nil =>
    intro m _ hm hdup
    exact absurd (by simpa using hm) hdup
  | cons e es ih =>
    intro m hf hm hdup
    obtain ⟨sig, hs, hk⟩ := hf e (List.mem_cons_self _ _)
    rw [loadSignals, hs]
    by_cases hc : m.contains sig.getCompSignal.uuid = true
    · exact ⟨sig.getCompSignal.uuid.toString, by simp only [hc, ↓reduceIte]⟩
    · have hc2 : m.contains sig.getCompSignal.uuid = false := by simpa using hc
      simp only [hc2, Bool.false_eq_true, ↓reduceIte]
      apply ih
      · intro e' he'
        exact hf e' (List.mem_cons_of_mem _ he')
      · rw [QHash.keys_insert_of_not_contains m _ _ hc2]
        exact List.nodup_cons.mpr ⟨(QHash.contains_eq_false_iff m _).mp hc2, hm⟩
      · rw [QHash.keys_insert_of_not_contains m _ _ hc2, hk]
        intro hnd
        apply hdup
        have hp : (List.map key (e :: es) ++ m.keys).Perm
            (List.map key es ++ key e :: m.keys) := by
          simp only [List.map_cons, List.cons_append]
          exact List.perm_middle.symm
        exact hp.nodup_iff.mpr hnd

/-- When the signal constructor succeeds on every remaining `map` element and
binds pairwise different signals, none of them in the table yet, the loop runs to
its end and the table has one more key per element. -/
theorem loadSignals_distinct (f : QDomElement → Except String GenCompSignalInstance)
    (key : QDomElement → QUuid) :
    ∀ (es : List QDomElement) (m : QHash QUuid GenCompSignalInstance),
      (∀ e ∈ es, ∃ s, f e = .ok s ∧ s.getCompSignal.uuid = key e) →
      (es.map key ++ m.keys).Nodup →
      ∃ m', loadSignals f es m = .ok m' ∧ m'.keys = (es.map key).reverse ++ m.keys := by
  intro es
  induction es with
  | nil =>
    intro m _ _
    exact ⟨m, rfl, by simp⟩
  | cons e es ih =>
    intro m hf hnd
    obtain ⟨sig, hs, hk⟩ := hf e (List.mem_cons_self _ _)
    have hnd2 : (key e :: (List.map key es ++ m.keys)).Nodup := by simpa using hnd
    have hnotin : key e ∉ m.keys := fun h =>
      (List.nodup_cons.mp hnd2).1 (List.mem_append_right _ h)
    have hc2 : m.contains sig.getCompSignal.uuid = false := by
      rw [QHash.contains_eq_false_iff, hk]
      exact hnotin
    have hp : (List.map key es ++ key e :: m.keys).Perm
        (key e :: (List.map key es ++ m.keys)) := List.perm_middle
    obtain ⟨m', h1, h2⟩ := ih (m.insert sig.getCompSignal.uuid sig)
      (fun e' he' => hf e' (List.mem_cons_of_mem _ he'))
      (by rw [QHash.keys_insert_of_not_contains m _ _ hc2, hk]; exact hp.nodup_iff.mpr hnd2)
    refine ⟨m', ?_, ?_⟩
    · rw [loadSignals, hs]
      simp only [hc2, Bool.false_eq_true, ↓reduceIte]
      exact h1
    · rw [h2, QHash.keys_insert_of_not_contains m _ _ hc2, hk]
      simp

/-- The checks of lines 46 to 77 passed: what the constructor does from line 79 on. -/
theorem new_of_header_ok (newSignal : SignalConstructor) (circuit : Circuit)
    (domElement : QDomElement) (D : GenericComponent) (V : GenCompSymbVar)
    (h1 : (QUuid.fromString (domElement.getAttribute "uuid")).isNull = false)
    (h2 : (domElement.getAttribute "name").isEmpty = false)
    (h3 : circuit.library.getGenericComponent
      (QUuid.fromString (domElement.getAttribute "generic_component")) = some D)
    (h4 : D.getSymbolVariantByUuid
      (QUuid.fromString (domElement.getAttribute "symbol_variant")) = some V) :
    new newSignal circuit domElement =
      match loadSignals (newSignal circuit D) (mapElements domElement) QHash.empty with
      | .error e => .error e
      | .ok mSignals =>
        if mSignals.count ≠ D.getSignals.count then
          .error ⟨.SignalCountMismatch,
            toString mSignals.count ++ "!=" ++ toString D.getSignals.count⟩
        else
          .ok { mCircuit := circuit, mDomElement := domElement, mAddedToCircuit := false,
                mUuid := QUuid.fromString (domElement.getAttribute "uuid"),
                mName := domElement.getAttribute "name", mGenComp := D,
                mGenCompSymbVar := V, mSignals := mSignals,
                mSymbolInstances := QHash.empty } := by
  simp only [new, h1, h2, h3, h4, Bool.false_eq_true, ↓reduceIte]

/-- A constructor call that returned passed the checks of lines 46 to 102. -/
theorem new_ok_inv (newSignal : SignalConstructor) (circuit : Circuit)
    (domElement : QDomElement) (self : GenericComponentInstance)
    (h : new newSignal circuit domElement = .ok self) :
    (QUuid.fromString (domElement.getAttribute "uuid")).isNull = false ∧
    (domElement.getAttribute "name").isEmpty = false ∧
    circuit.library.getGenericComponent
      (QUuid.fromString (domElement.getAttribute "generic_component")) = some self.mGenComp ∧
    self.mGenComp.getSymbolVariantByUuid
      (QUuid.fromString (domElement.getAttribute "symbol_variant")) = some self.mGenCompSymbVar ∧
    loadSignals (newSignal circuit self.mGenComp) (mapElements domElement) QHash.empty =
      .ok self.mSignals ∧
    self.mSignals.count = self.mGenComp.getSignals.count := by
  unfold new at h
  simp only at h
  split at h
  · cases h
  · rename_i h1
    split at h
    · cases h
    · rename_i h2
      split at h
      · cases h
      · rename_i D h3
        split at h
        · cases h
        · rename_i V h4
          split at h
          · cases h
          · rename_i mSignals h5
            split at h
            · cases h
            · rename_i h6
              simp only [Except.ok.injEq] at h
              subst h
              refine ⟨by simpa using h1, by simpa using h2, h3, h4, h5, by simpa using h6⟩

end GenericComponentInstance

/-! ## Construction: the signal mapping -/

open GenericComponentInstance

/-- C2, as stated, fails: the signal instance of an entry is constructed (line 85)
before the entry is tested for a repeated signal (line 86). With a signal
constructor that throws on a signal the definition does not have, the node with
the entries `A`, `C`, `A` names the signal `A` at two positions and throws out
of the signal constructor at `C`; the same entries in the order `A`, `A`, `C`
throw DuplicateSignalMapping. -/
theorem new_duplicate_signal_mapping_counterexample :
    (mapElements Sample.nodeACA).map
      (fun e => QUuid.fromString (e.getAttribute "comp_signal")) =
      [Sample.sigA, Sample.sigC, Sample.sigA] ∧
    (mapElements Sample.nodeAAC).Perm (mapElements Sample.nodeACA) ∧
    errorKind? (new Sample.newSignal Sample.circuit Sample.nodeACA) =
      some .SignalInstanceFailed ∧
    errorKind? (new Sample.newSignal Sample.circuit Sample.nodeAAC) =
      some .DuplicateSignalMapping := by
  refine ⟨by decide, ?_, rfl, rfl⟩
  exact List.Perm.cons _ (List.Perm.swap _ _ [])

/-- C2, amended: when the first four checks pass, the signal constructor succeeds on the
`map` elements, and `entries` is a list of `map` elements in which some signal
identifier stands at two positions, then for every node whose `map` elements
are a rearrangement of `entries` the constructor throws DuplicateSignalMapping.
Nothing is assumed on how the number of entries compares with the number of
signals of the definition. -/
theorem new_duplicate_signal_mapping (newSignal : SignalConstructor) (circuit : Circuit)
    (domElement : QDomElement) (D : GenericComponent) (V : GenCompSymbVar)
    (key : QDomElement → QUuid) (entries : List QDomElement)
    (h1 : (QUuid.fromString (domElement.getAttribute "uuid")).isNull = false)
    (h2 : (domElement.getAttribute "name").isEmpty = false)
    (h3 : circuit.library.getGenericComponent
      (QUuid.fromString (domElement.getAttribute "generic_component")) = some D)
    (h4 : D.getSymbolVariantByUuid
      (QUuid.fromString (domElement.getAttribute "symbol_variant")) = some V)
    (hsig : ∀ e ∈ entries, ∃ s, newSignal circuit D e = .ok s ∧ s.getCompSignal.uuid = key e)
    (hdup : ¬ (entries.map key).Nodup)
    (hperm : (mapElements domElement).Perm entries) :
    errorKind? (new newSignal circuit domElement) = some .DuplicateSignalMapping := by
  rw [new_of_header_ok newSignal circuit domElement D V h1 h2 h3 h4]
  have hdup2 : ¬ ((mapElements domElement).map key ++
      (QHash.empty : QHash QUuid GenCompSignalInstance).keys).Nodup := by
    simp only [QHash.empty, QHash.keys, List.map_nil, List.append_nil]
    intro hnd
    exact hdup ((hperm.map key).nodup_iff.mp hnd)
  obtain ⟨msg, hmsg⟩ := loadSignals_duplicate (newSignal circuit D) key (mapElements domElement)
    QHash.empty (fun e he => hsig e (hperm.mem_iff.mp he))
    (by simp [QHash.empty, QHash.keys]) hdup2
  rw [hmsg]
  rfl

/-- C2, amended, at the sample project: the node with the mapping `A`, `A` has as many entries
as `D` has signals, and loading it throws DuplicateSignalMapping. -/
theorem new_duplicate_signal_mapping_witness :
    (mapElements Sample.nodeAA).length = Sample.compD.getSignals.count ∧
    errorKind? (new Sample.newSignal Sample.circuit Sample.nodeAA) =
      some .DuplicateSignalMapping :=
  ⟨by decide, new_duplicate_signal_mapping Sample.newSignal Sample.circuit Sample.nodeAA
    Sample.compD Sample.varV (fun _ => Sample.sigA)
    [Sample.mapElement 10 Sample.sigA, Sample.mapElement 9 Sample.sigA]
    rfl rfl rfl rfl
    (by
      intro e he
      simp only [List.mem_cons, List.mem_singleton, List.not_mem_nil, or_false] at he
      rcases he with rfl | rfl
      · exact ⟨⟨⟨Sample.sigA, "A"⟩, none, 0, 0⟩, rfl, rfl⟩
      · exact ⟨⟨⟨Sample.sigA, "A"⟩, none, 0, 0⟩, rfl, rfl⟩)
    (by decide)
    (List.Perm.swap _ _ [])⟩

/-- C3: when the first four checks pass and the signal constructor succeeds on the
`k` `map` elements of the node, binding pairwise different signals, while the
definition has `m` signals with `k ≠ m`, the constructor throws
SignalCountMismatch and the debug message reads `k!=m`. -/
theorem new_signal_count_mismatch (newSignal : SignalConstructor) (circuit : Circuit)
    (domElement : QDomElement) (D : GenericComponent) (V : GenCompSymbVar)
    (key : QDomElement → QUuid)
    (h1 : (QUuid.fromString (domElement.getAttribute "uuid")).isNull = false)
    (h2 : (domElement.getAttribute "name").isEmpty = false)
    (h3 : circuit.library.getGenericComponent
      (QUuid.fromString (domElement.getAttribute "generic_component")) = some D)
    (h4 : D.getSymbolVariantByUuid
      (QUuid.fromString (domElement.getAttribute "symbol_variant")) = some V)
    (hsig : ∀ e ∈ mapElements domElement,
      ∃ s, newSignal circuit D e = .ok s ∧ s.getCompSignal.uuid = key e)
    (hdistinct : ((mapElements domElement).map key).Nodup)
    (hne : (mapElements domElement).length ≠ D.getSignals.count) :
    new newSignal circuit domElement =
      .error ⟨.SignalCountMismatch,
        toString (mapElements domElement).length ++ "!=" ++ toString D.getSignals.count⟩ := by
  rw [new_of_header_ok newSignal circuit domElement D V h1 h2 h3 h4]
  obtain ⟨m', hm', hkeys⟩ := loadSignals_distinct (newSignal circuit D) key
    (mapElements domElement) QHash.empty hsig
    (by simpa [QHash.empty, QHash.keys] using hdistinct)
  have hnd : m'.keys.Nodup := by
    rw [hkeys]
    simpa [QHash.empty, QHash.keys] using hdistinct
  have hcount : m'.count = (mapElements domElement).length := by
    rw [QHash.count_of_nodup m' hnd, hkeys]
    simp [QHash.empty, QHash.keys]
  rw [hm']
  simp only [hcount, ne_eq, hne, not_false_eq_true, ↓reduceIte]

/-- C3 at the sample project: the mapping `A` alone against the signals `A`, `B` of
`D` throws SignalCountMismatch with the message `1!=2`. -/
theorem new_signal_count_mismatch_witness :
    new Sample.newSignal Sample.circuit Sample.nodeA =
      .error ⟨.SignalCountMismatch, "1!=2"⟩ :=
  new_signal_count_mismatch Sample.newSignal Sample.circuit Sample.nodeA
    Sample.compD Sample.varV (fun _ => Sample.sigA) rfl rfl rfl rfl
    (by
      intro e he
      have hm : mapElements Sample.nodeA = [Sample.mapElement 9 Sample.sigA] := rfl
      rw [hm] at he
      simp only [List.mem_singleton] at he
      subst he
      exact ⟨⟨⟨Sample.sigA, "A"⟩, none, 0, 0⟩, rfl, rfl⟩)
    (by decide) (by decide)

/-! ## Construction: the first four checks -/

theorem QUuid.isNull_iff (u : QUuid) : u.isNull = true ↔ u = QUuid.null := by
  cases u with
  | mk v => simp [QUuid.isNull, QUuid.null]

theorem QUuid.isNull_fromString_iff (text : String) :
    (QUuid.fromString text).isNull = true ↔
      QUuid.parse text = none ∨ QUuid.parse text = some QUuid.null := by
  unfold QUuid.fromString
  cases h : QUuid.parse text with
  | none => simp [QUuid.isNull, QUuid.null]
  | some u => simp [QUuid.isNull_iff]

theorem QDomElement.getAttribute_of_not_hasAttribute (e : QDomElement) (name : String)
    (h : e.hasAttribute name = false) : e.getAttribute name = "" := by
  cases e with
  | null => rfl
  | elem i t as cs =>
    simp only [QDomElement.hasAttribute, List.any_eq_false, decide_eq_true_eq] at h
    have : as.find? (fun a => decide (a.1 = name)) = none := by
      rw [List.find?_eq_none]
      intro a ha
      simpa using h a ha
    simp [QDomElement.getAttribute, this]

theorem QUuid.parse_empty : QUuid.parse "" = none := by decide

/-- The loop throws only at its own two sites. -/
theorem GenericComponentInstance.loadSignals_kind
    (f : QDomElement → Except String GenCompSignalInstance) :
    ∀ (es : List QDomElement) (m : QHash QUuid GenCompSignalInstance),
      errorKind? (loadSignals f es m) = none ∨
      errorKind? (loadSignals f es m) = some .SignalInstanceFailed ∨
      errorKind? (loadSignals f es m) = some .DuplicateSignalMapping := by
  intro es
  induction es with
  | nil => intro m; exact Or.inl rfl
  | cons e es ih =>
    intro m
    rw [loadSignals]
    cases hf : f e with
    | error msg => exact Or.inr (Or.inl rfl)
    | ok sig =>
      by_cases hc : m.contains sig.getCompSignal.uuid = true
      · simp only [hc, ↓reduceIte]
        exact Or.inr (Or.inr rfl)
      · simp only [hc, Bool.false_eq_true, ↓reduceIte]
        exact ih _

/-- The outcome of the constructor, check by check, in the order of the source. -/
theorem GenericComponentInstance.new_header_cases (newSignal : SignalConstructor)
    (circuit : Circuit) (domElement : QDomElement) :
    ((QUuid.fromString (domElement.getAttribute "uuid")).isNull = true →
      errorKind? (new newSignal circuit domElement) = some .MalformedIdentifier) ∧
    ((QUuid.fromString (domElement.getAttribute "uuid")).isNull = false →
      (domElement.getAttribute "name").isEmpty = true →
      errorKind? (new newSignal circuit domElement) = some .EmptyName) ∧
    ((QUuid.fromString (domElement.getAttribute "uuid")).isNull = false →
      (domElement.getAttribute "name").isEmpty = false →
      circuit.library.getGenericComponent
        (QUuid.fromString (domElement.getAttribute "generic_component")) = none →
      errorKind? (new newSignal circuit domElement) = some .UnknownComponentDefinition) ∧
    (∀ D, (QUuid.fromString (domElement.getAttribute "uuid")).isNull = false →
      (domElement.getAttribute "name").isEmpty = false →
      circuit.library.getGenericComponent
        (QUuid.fromString (domElement.getAttribute "generic_component")) = some D →
      D.getSymbolVariantByUuid
        (QUuid.fromString (domElement.getAttribute "symbol_variant")) = none →
      errorKind? (new newSignal circuit domElement) = some .UnknownSymbolVariant) ∧
    (∀ D V, (QUuid.fromString (domElement.getAttribute "uuid")).isNull = false →
      (domElement.getAttribute "name").isEmpty = false →
      circuit.library.getGenericComponent
        (QUuid.fromString (domElement.getAttribute "generic_component")) = some D →
      D.getSymbolVariantByUuid
        (QUuid.fromString (domElement.getAttribute "symbol_variant")) = some V →
      ∀ k ∈ headerKinds, errorKind? (new newSignal circuit domElement) ≠ some k) := by
  refine ⟨?_, ?_, ?_, ?_, ?_⟩
  · intro h1
    simp only [new, h1, ↓reduceIte]
    rfl
  · intro h1 h2
    simp only [new, h1, h2, Bool.false_eq_true, ↓reduceIte]
    rfl
  · intro h1 h2 h3
    simp only [new, h1, h2, h3, Bool.false_eq_true, ↓reduceIte]
    rfl
  · intro D h1 h2 h3 h4
    simp only [new, h1, h2, h3, h4, Bool.false_eq_true, ↓reduceIte]
    rfl
  · intro D V h1 h2 h3 h4 k hk
    rw [new_of_header_ok newSignal circuit domElement D V h1 h2 h3 h4]
    have hl := loadSignals_kind (newSignal circuit D) (mapElements domElement) QHash.empty
    cases hr : loadSignals (newSignal circuit D) (mapElements domElement) QHash.empty with
    | error e =>
      rw [hr] at hl
      simp only [errorKind?] at hl ⊢
      simp only [headerKinds, List.mem_cons, List.mem_singleton, List.not_mem_nil,
        or_false] at hk
      rcases hl with hl | hl | hl
      · cases hl
      · rw [hl]; rcases hk with rfl | rfl | rfl | rfl <;> simp
      · rw [hl]; rcases hk with rfl | rfl | rfl | rfl <;> simp
    | ok mSignals =>
      simp only [headerKinds, List.mem_cons, List.mem_singleton, List.not_mem_nil,
        or_false] at hk
      by_cases hcount : mSignals.count ≠ D.getSignals.count
      · show errorKind? (if mSignals.count ≠ D.getSignals.count then _ else _) ≠ some k
        rw [if_pos hcount]
        simp only [errorKind?]
        rcases hk with rfl | rfl | rfl | rfl <;> simp
      · show errorKind? (if mSignals.count ≠ D.getSignals.count then _ else _) ≠ some k
        rw [if_neg hcount]
        simp [errorKind?]

/-- The constructor throws at one of its first four sites exactly when the four
checks on their own do, and then at the same site. -/
theorem GenericComponentInstance.new_header_kind (newSignal : SignalConstructor)
    (circuit : Circuit) (domElement : QDomElement) (k : ErrorKind) (hk : k ∈ headerKinds) :
    errorKind? (new newSignal circuit domElement) = some k ↔
      headerCheck circuit domElement = some k := by
  obtain ⟨c1, c2, c3, c4, c5⟩ := new_header_cases newSignal circuit domElement
  unfold headerCheck
  cases h1 : (QUuid.fromString (domElement.getAttribute "uuid")).isNull with
  | true => simp only [c1 h1, ↓reduceIte]
  | false =>
    cases h2 : (domElement.getAttribute "name").isEmpty with
    | true => simp only [c2 h1 h2, Bool.false_eq_true, ↓reduceIte]
    | false =>
      cases h3 : circuit.library.getGenericComponent
          (QUuid.fromString (domElement.getAttribute "generic_component")) with
      | none => simp only [c3 h1 h2 h3, Bool.false_eq_true, ↓reduceIte]
      | some D =>
        cases h4 : D.getSymbolVariantByUuid
            (QUuid.fromString (domElement.getAttribute "symbol_variant")) with
        | none => simp only [c4 D h1 h2 h3 h4, h4, Bool.false_eq_true, ↓reduceIte]
        | some V =>
          simp only [h4, Bool.false_eq_true, ↓reduceIte]
          constructor
          · intro h
            exact absurd h (c5 D V h1 h2 h3 h4 k hk)
          · intro h
            cases h

/-- The four checks on their own read the node through its attributes only. -/
theorem headerCheck_congr (circuit : Circuit) (domElement domElement' : QDomElement)
    (h : ∀ name, domElement'.getAttribute name = domElement.getAttribute name) :
    headerCheck circuit domElement' = headerCheck circuit domElement := by
  simp only [headerCheck, h]

/-- The identifier check throws exactly on an absent attribute, a text that is not
read as a UUID, and a text read as the null UUID. -/
theorem isNull_uuid_attribute_iff (domElement : QDomElement) :
    (QUuid.fromString (domElement.getAttribute "uuid")).isNull = true ↔
      (domElement.hasAttribute "uuid" = false ∨
        QUuid.parse (domElement.getAttribute "uuid") = none ∨
        QUuid.parse (domElement.getAttribute "uuid") = some QUuid.null) := by
  rw [QUuid.isNull_fromString_iff]
  constructor
  · intro h
    exact Or.inr h
  · rintro (h | h)
    · left
      rw [QDomElement.getAttribute_of_not_hasAttribute _ _ h]
      exact QUuid.parse_empty
    · exact h

/-- The name check throws exactly on an absent and on an empty attribute. -/
theorem isEmpty_name_attribute_iff (domElement : QDomElement) :
    (domElement.getAttribute "name").isEmpty = true ↔
      (domElement.hasAttribute "name" = false ∨ domElement.getAttribute "name" = "") := by
  rw [String.isEmpty_iff]
  constructor
  · intro h
    exact Or.inr h
  · rintro (h | h)
    · exact QDomElement.getAttribute_of_not_hasAttribute _ _ h
    · exact h

/-- What each outcome of the four checks on their own means. -/
theorem headerCheck_iff (circuit : Circuit) (domElement : QDomElement) :
    (headerCheck circuit domElement = some .MalformedIdentifier ↔
      (QUuid.fromString (domElement.getAttribute "uuid")).isNull = true) ∧
    (headerCheck circuit domElement = some .EmptyName ↔
      (QUuid.fromString (domElement.getAttribute "uuid")).isNull = false ∧
      (domElement.getAttribute "name").isEmpty = true) ∧
    (headerCheck circuit domElement = some .UnknownComponentDefinition ↔
      (QUuid.fromString (domElement.getAttribute "uuid")).isNull = false ∧
      (domElement.getAttribute "name").isEmpty = false ∧
      circuit.library.getGenericComponent
        (QUuid.fromString (domElement.getAttribute "generic_component")) = none) ∧
    (headerCheck circuit domElement = some .UnknownSymbolVariant ↔
      (QUuid.fromString (domElement.getAttribute "uuid")).isNull = false ∧
      (domElement.getAttribute "name").isEmpty = false ∧
      ∃ D, circuit.library.getGenericComponent
          (QUuid.fromString (domElement.getAttribute "generic_component")) = some D ∧
        D.getSymbolVariantByUuid
          (QUuid.fromString (domElement.getAttribute "symbol_variant")) = none) := by
  unfold headerCheck
  cases h1 : (QUuid.fromString (domElement.getAttribute "uuid")).isNull with
  | true => simp
  | false =>
    cases h2 : (domElement.getAttribute "name").isEmpty with
    | true => simp
    | false =>
      cases h3 : circuit.library.getGenericComponent
          (QUuid.fromString (domElement.getAttribute "generic_component")) with
      | none => simp
      | some D =>
        cases h4 : D.getSymbolVariantByUuid
            (QUuid.fromString (domElement.getAttribute "symbol_variant")) with
        | none => simp [h4]
        | some V => simp [h4]

/-- C4, as stated, fails: the `uuid` attribute of the node is present and is the
text of the all-zero UUID, which is read as a UUID; the constructor throws
MalformedIdentifier all the same. -/
theorem new_malformed_identifier_counterexample :
    Sample.nodeZero.getAttribute "uuid" = "\x7b00000000-0000-0000-0000-000000000000\x7d" ∧
    ¬ (errorKind? (new Sample.newSignal Sample.circuit Sample.nodeZero) =
          some .MalformedIdentifier ↔
        (Sample.nodeZero.hasAttribute "uuid" = false ∨
          QUuid.parse (Sample.nodeZero.getAttribute "uuid") = none)) := by
  refine ⟨by decide, ?_⟩
  intro h
  have hl : errorKind? (new Sample.newSignal Sample.circuit Sample.nodeZero) =
      some .MalformedIdentifier := rfl
  rcases h.mp hl with h1 | h2
  · exact absurd h1 (by decide)
  · exact absurd h2 (by decide)

/-- C4, amended: the constructor reports the first failing check in the order
identifier, name, component definition, symbol variant. It throws
MalformedIdentifier exactly when the `uuid` attribute is absent, is not
read as a UUID, or is read as the null (all-zero) UUID; otherwise EmptyName
exactly when the `name` attribute is absent or empty; otherwise
UnknownComponentDefinition exactly when the library has no definition for
`generic_component`; otherwise UnknownSymbolVariant exactly when that
definition has no variant for `symbol_variant`. Whether one of these
four is thrown, and which, is the same for any node with the same attributes
and any signal constructor, whatever the signal mapping holds. -/
theorem new_first_failing_check (newSignal : SignalConstructor) (circuit : Circuit)
    (domElement : QDomElement) :
    (errorKind? (new newSignal circuit domElement) = some .MalformedIdentifier ↔
      (domElement.hasAttribute "uuid" = false ∨
        QUuid.parse (domElement.getAttribute "uuid") = none ∨
        QUuid.parse (domElement.getAttribute "uuid") = some QUuid.null)) ∧
    (errorKind? (new newSignal circuit domElement) = some .EmptyName ↔
      (QUuid.fromString (domElement.getAttribute "uuid")).isNull = false ∧
      (domElement.hasAttribute "name" = false ∨ domElement.getAttribute "name" = "")) ∧
    (errorKind? (new newSignal circuit domElement) = some .UnknownComponentDefinition ↔
      (QUuid.fromString (domElement.getAttribute "uuid")).isNull = false ∧
      domElement.getAttribute "name" ≠ "" ∧
      circuit.library.getGenericComponent
        (QUuid.fromString (domElement.getAttribute "generic_component")) = none) ∧
    (errorKind? (new newSignal circuit domElement) = some .UnknownSymbolVariant ↔
      (QUuid.fromString (domElement.getAttribute "uuid")).isNull = false ∧
      domElement.getAttribute "name" ≠ "" ∧
      ∃ D, circuit.library.getGenericComponent
          (QUuid.fromString (domElement.getAttribute "generic_component")) = some D ∧
        D.getSymbolVariantByUuid
          (QUuid.fromString (domElement.getAttribute "symbol_variant")) = none) ∧
    (∀ (newSignal' : SignalConstructor) (domElement' : QDomElement),
      (∀ name, domElement'.getAttribute name = domElement.getAttribute name) →
      ∀ k ∈ headerKinds,
        (errorKind? (new newSignal' circuit domElement') = some k ↔
          errorKind? (new newSignal circuit domElement) = some k)) := by
  obtain ⟨k1, k2, k3, k4⟩ := headerCheck_iff circuit domElement
  have hne : (domElement.getAttribute "name").isEmpty = false ↔
      domElement.getAttribute "name" ≠ "" := by
    rw [← Bool.not_eq_true, String.isEmpty_iff]
  refine ⟨?_, ?_, ?_, ?_, ?_⟩
  · rw [new_header_kind newSignal circuit domElement _ (by simp [headerKinds]), k1,
      isNull_uuid_attribute_iff]
  · rw [new_header_kind newSignal circuit domElement _ (by simp [headerKinds]), k2,
      isEmpty_name_attribute_iff]
  · rw [new_header_kind newSignal circuit domElement _ (by simp [headerKinds]), k3, hne]
  · rw [new_header_kind newSignal circuit domElement _ (by simp [headerKinds]), k4, hne]
  · intro newSignal' domElement' hattr k hk
    rw [new_header_kind newSignal' circuit domElement' k hk,
      new_header_kind newSignal circuit domElement k hk,
      headerCheck_congr circuit domElement domElement' hattr]

/-- C4, amended, at the sample project: the node with a null identifier and an
empty name throws MalformedIdentifier, with the mapping `A`, `B` as with no
signal mapping at all. -/
theorem new_first_failing_check_witness :
    errorKind? (new Sample.newSignal Sample.circuit
        (Sample.node QUuid.null.toString "" [Sample.mapElement 9 Sample.sigA,
          Sample.mapElement 10 Sample.sigB])) = some .MalformedIdentifier ∧
    errorKind? (new Sample.newSignal Sample.circuit
        (Sample.node QUuid.null.toString "" [])) = some .MalformedIdentifier :=
  ⟨rfl,
    ((new_first_failing_check Sample.newSignal Sample.circuit
        (Sample.node QUuid.null.toString "" [Sample.mapElement 9 Sample.sigA,
          Sample.mapElement 10 Sample.sigB])).2.2.2.2
      Sample.newSignal (Sample.node QUuid.null.toString "" []) (fun _ => rfl)
      .MalformedIdentifier (by decide)).mpr rfl⟩

/-! ## Attach and detach -/

theorem QDomElement.sameNode_self_of_not_isNull (e : QDomElement) (h : e.isNull = false) :
    QDomElement.sameNode e e = true := by
  cases e with
  | null => cases h
  | elem j tj aj cj => simp [QDomElement.sameNode]

/-- Appending a node and removing it again leaves the children that are not this
node, in their order. -/
theorem QDomElement.removeChild_appendChild (i : Nat) (t : String) (as : List (String × String))
    (cs : List QDomElement) (e : QDomElement) (h : e.isNull = false) :
    QDomElement.removeChild (QDomElement.appendChild (.elem i t as cs) e).1 e =
      (.elem i t as (cs.filter (fun c => !QDomElement.sameNode c e)), e) := by
  cases e with
  | null => cases h
  | elem j tj aj cj =>
    simp [QDomElement.appendChild, QDomElement.removeChild, QDomElement.sameNode,
      List.filter_append, List.filter_filter]

/-- C5: on an attached object, `removeFromCircuit(true, parent)` throws
SignalStillConnected if and only if some signal instance of the object is
linked to a net signal, whatever the parent element is. -/
theorem removeFromCircuit_signal_still_connected_iff (self : GenericComponentInstance)
    (parent : QDomElement) (h : self.mAddedToCircuit = true) :
    errorKind? (self.removeFromCircuit true parent).result = some .SignalStillConnected ↔
      ∃ signal ∈ self.mSignals.values, signal.getNetSignal ≠ none := by
  have hany : (self.mSignals.values.any (fun signal => signal.getNetSignal.isSome) = true) ↔
      ∃ signal ∈ self.mSignals.values, signal.getNetSignal ≠ none := by
    simp only [List.any_eq_true, Option.isSome_iff_ne_none]
  rw [← hany]
  unfold removeFromCircuit
  simp only [h, Bool.not_true, Bool.false_eq_true, ↓reduceIte, true_and]
  split_ifs with h1 h2 h3
  · simp [errorKind?, h1]
  · simp [errorKind?, h1]
  · simp [errorKind?, h1]
  · simp [errorKind?, h1]

/-- C5 at the sample project: with the signal `A` still linked, removal under a
null parent element throws SignalStillConnected, not InvalidParent. -/
theorem removeFromCircuit_signal_still_connected_iff_witness :
    errorKind? (Sample.linked.removeFromCircuit true QDomElement.null).result =
      some .SignalStillConnected :=
  (removeFromCircuit_signal_still_connected_iff Sample.linked QDomElement.null rfl).mpr
    ⟨⟨⟨Sample.sigA, "A"⟩, some 5, 1, 0⟩, by decide, by decide⟩

theorem addToCircuit_ok_inv (self : GenericComponentInstance) (addNode : Bool)
    (parent : QDomElement) (h : (self.addToCircuit addNode parent).result = .ok ()) :
    self.mAddedToCircuit = false ∧
    (addNode = true → parent.nodeName = "generic_component_instances" ∧
      (parent.appendChild self.mDomElement).2.isNull = false) ∧
    (self.addToCircuit addNode parent).self =
      { self with
        mSignals := self.mSignals.mapValues GenCompSignalInstance.addToCircuit,
        mAddedToCircuit := true } ∧
    (self.addToCircuit addNode parent).parent =
      if addNode then (parent.appendChild self.mDomElement).1 else parent := by
  unfold addToCircuit at h ⊢
  split_ifs at h ⊢ with h1 h2 h3 h4
  all_goals try cases h
  · refine ⟨by simpa using h1, fun _ => ?_, rfl, rfl⟩
    simp only [h4, true_and, ne_eq, Decidable.not_not] at h2 h3
    exact ⟨h2, by simpa using h3⟩
  · exact ⟨by simpa using h1, fun ha => absurd ha h4, rfl, rfl⟩

theorem removeFromCircuit_ok_inv (self : GenericComponentInstance) (removeNode : Bool)
    (parent : QDomElement) (h : (self.removeFromCircuit removeNode parent).result = .ok ()) :
    self.mAddedToCircuit = true ∧
    (removeNode = true →
      self.mSignals.values.any (fun signal => signal.getNetSignal.isSome) = false ∧
      parent.nodeName = "generic_component_instances" ∧
      (parent.removeChild self.mDomElement).2.isNull = false) ∧
    (self.removeFromCircuit removeNode parent).self =
      { self with
        mSignals := self.mSignals.mapValues GenCompSignalInstance.removeFromCircuit,
        mAddedToCircuit := false } ∧
    (self.removeFromCircuit removeNode parent).parent =
      if removeNode then (parent.removeChild self.mDomElement).1 else parent := by
  unfold removeFromCircuit at h ⊢
  split_ifs at h ⊢ with h1 h2 h3 h4 h5
  all_goals try cases h
  · refine ⟨by simpa using h1, fun _ => ?_, rfl, rfl⟩
    simp only [h5, true_and, ne_eq, Decidable.not_not] at h2 h3 h4
    exact ⟨by simpa using h2, h3, by simpa using h4⟩
  · exact ⟨by simpa using h1, fun ha => absurd ha h5, rfl, rfl⟩

/-- C6, as stated, fails: the sample object is the one loaded from its node, and
that node is already a child of the container (as it is in a project read from
disk); attaching with node insertion and detaching with node removal both
succeed, and the container ends up without the child it had. -/
theorem addToCircuit_removeFromCircuit_counterexample :
    new Sample.newSignal Sample.circuit Sample.nodeAB = .ok Sample.loaded ∧
    (Sample.loaded.addToCircuit true (Sample.container [Sample.nodeAB])).result = .ok () ∧
    ((Sample.loaded.addToCircuit true (Sample.container [Sample.nodeAB])).self.removeFromCircuit
      true (Sample.loaded.addToCircuit true (Sample.container [Sample.nodeAB])).parent).result =
      .ok () ∧
    ((Sample.loaded.addToCircuit true (Sample.container [Sample.nodeAB])).self.removeFromCircuit
      true (Sample.loaded.addToCircuit true (Sample.container [Sample.nodeAB])).parent
      ).parent.children ≠ (Sample.container [Sample.nodeAB]).children := by
  refine ⟨rfl, rfl, rfl, ?_⟩
  intro h
  have hl := congrArg List.length h
  exact absurd hl (by decide)

/-- C6, amended: when `addToCircuit(true, parent)` succeeds and the following
`removeFromCircuit(true, parent)` succeeds too, the children of the parent
afterwards are its children before the attach without the node of the object,
in the same order; so when that node was not among them before the attach,
the parent (its children and their order included) is as it was. -/
theorem addToCircuit_removeFromCircuit_children (self : GenericComponentInstance)
    (parent : QDomElement)
    (hadd : (self.addToCircuit true parent).result = .ok ())
    (hrem : ((self.addToCircuit true parent).self.removeFromCircuit true
      (self.addToCircuit true parent).parent).result = .ok ()) :
    ((self.addToCircuit true parent).self.removeFromCircuit true
      (self.addToCircuit true parent).parent).parent.children =
      parent.children.filter (fun c => !QDomElement.sameNode c self.mDomElement) ∧
    ((∀ c ∈ parent.children, QDomElement.sameNode c self.mDomElement = false) →
      ((self.addToCircuit true parent).self.removeFromCircuit true
        (self.addToCircuit true parent).parent).parent = parent) := by
  obtain ⟨_, ha2, ha3, ha4⟩ := addToCircuit_ok_inv self true parent hadd
  obtain ⟨_, _, _, hr4⟩ := removeFromCircuit_ok_inv _ true _ hrem
  obtain ⟨hname, hnotnull⟩ := ha2 rfl
  rw [hr4, ha4, ha3]
  simp only [↓reduceIte]
  cases parent with
  | null => exact absurd hname (by decide)
  | elem i t as cs =>
    have he : self.mDomElement.isNull = false := by
      cases hd : self.mDomElement with
      | null => rw [hd] at hnotnull; cases hnotnull
      | elem j tj aj cj => rfl
    rw [QDomElement.removeChild_appendChild i t as cs self.mDomElement he]
    refine ⟨rfl, ?_⟩
    intro hnew
    have hf : cs.filter (fun c => !QDomElement.sameNode c self.mDomElement) = cs := by
      rw [List.filter_eq_self]
      intro c hc
      simp [hnew c hc]
    simp only [hf]

/-- C6, amended, at the sample project: attaching the sample object under an empty
container and detaching it again leaves the container as it was. -/
theorem addToCircuit_removeFromCircuit_children_witness :
    ((Sample.loaded.addToCircuit true (Sample.container [])).self.removeFromCircuit true
      (Sample.loaded.addToCircuit true (Sample.container [])).parent).parent =
      Sample.container [] :=
  (addToCircuit_removeFromCircuit_children Sample.loaded (Sample.container []) rfl rfl).2
    (by intro c hc; cases hc)

/-! ## The symbol-instance registry -/

theorem QHash.contains_eq_isSome_find? {K V : Type} [DecidableEq K] (m : QHash K V) (k : K) :
    m.contains k = (m.find? k).isSome := by
  cases m with
  | mk es =>
    simp only [QHash.contains, QHash.find?, Option.isSome_map']
    induction es with
    | nil => rfl
    | cons e es ih =>
      by_cases h : e.1 = k
      · simp [List.find?_cons, h]
      · simp only [List.any_cons, h, decide_False, Bool.false_or, List.find?_cons]
        exact ih

theorem QHash.contains_insert_self {K V : Type} [DecidableEq K] (m : QHash K V) (k : K) (v : V) :
    (m.insert k v).contains k = true := by
  simp [QHash.insert, QHash.contains]

theorem QHash.value_insert_self {K V : Type} [DecidableEq K] [Inhabited V] (m : QHash K V)
    (k : K) (v : V) : (m.insert k v).value k = v := by
  simp [QHash.value, QHash.find?_insert]

theorem library.GenCompSymbVar.getItemByUuid_uuid (v : GenCompSymbVar) (u : QUuid)
    (item : GenCompSymbVarItem) (h : v.getItemByUuid u = some item) : item.uuid = u := by
  have := List.find?_some h
  simpa using this

theorem GenericComponentInstance.registerSymbolInstance_ok_inv (self : GenericComponentInstance)
    (itemUuid symbolUuid : QUuid) (inst : Option Nat)
    (h : (self.registerSymbolInstance itemUuid symbolUuid inst).result = .ok ()) :
    self.mAddedToCircuit = true ∧
    (∃ item, self.mGenCompSymbVar.getItemByUuid itemUuid = some item ∧
      symbolUuid = item.symbolUuid) ∧
    self.mSymbolInstances.contains itemUuid = false ∧
    (self.registerSymbolInstance itemUuid symbolUuid inst).self =
      { self with mSymbolInstances := self.mSymbolInstances.insert itemUuid inst } := by
  unfold registerSymbolInstance at h ⊢
  cases h1 : self.mAddedToCircuit with
  | false => simp [h1] at h
  | true =>
    simp only [h1, Bool.not_true, Bool.false_eq_true, ↓reduceIte] at h ⊢
    cases h2 : self.mGenCompSymbVar.getItemByUuid itemUuid with
    | none => simp [h2] at h
    | some item =>
      have hu := GenCompSymbVar.getItemByUuid_uuid _ _ _ h2
      simp only [h2] at h ⊢
      split_ifs at h ⊢ with h3 h4
      all_goals try cases h
      refine ⟨trivial, ⟨item, rfl, ?_⟩, ?_, rfl⟩
      · simpa using h3
      · rw [hu] at h4
        simpa using h4

/-- C7: `registerSymbolInstance(itemUuid, symbolUuid, instance)` returns exactly when
the object is attached, the selected variant has the slot `itemUuid`, the
symbol expected in that slot is `symbolUuid`, and nothing is registered under
the slot. Otherwise it throws at the first site that applies, in the order
NotAttached, UnknownSlot, SymbolMismatch, SlotAlreadyOccupied. When it returns,
only the registry has changed: it holds `instance` under `itemUuid`, one new
entry before the entries it had, and every other slot reads as before. -/
theorem registerSymbolInstance_outcome (self : GenericComponentInstance)
    (itemUuid symbolUuid : QUuid) (inst : Option Nat) :
    ((self.registerSymbolInstance itemUuid symbolUuid inst).result = .ok () ↔
      (self.mAddedToCircuit = true ∧
        (∃ item, self.mGenCompSymbVar.getItemByUuid itemUuid = some item ∧
          symbolUuid = item.symbolUuid) ∧
        self.mSymbolInstances.contains itemUuid = false)) ∧
    (self.mAddedToCircuit = false →
      errorKind? (self.registerSymbolInstance itemUuid symbolUuid inst).result =
        some .NotAttached) ∧
    (self.mAddedToCircuit = true → self.mGenCompSymbVar.getItemByUuid itemUuid = none →
      errorKind? (self.registerSymbolInstance itemUuid symbolUuid inst).result =
        some .UnknownSlot) ∧
    (self.mAddedToCircuit = true →
      ∀ item, self.mGenCompSymbVar.getItemByUuid itemUuid = some item →
        symbolUuid ≠ item.symbolUuid →
        errorKind? (self.registerSymbolInstance itemUuid symbolUuid inst).result =
          some .SymbolMismatch) ∧
    (self.mAddedToCircuit = true →
      ∀ item, self.mGenCompSymbVar.getItemByUuid itemUuid = some item →
        symbolUuid = item.symbolUuid → self.mSymbolInstances.contains itemUuid = true →
        errorKind? (self.registerSymbolInstance itemUuid symbolUuid inst).result =
          some .SlotAlreadyOccupied) ∧
    ((self.registerSymbolInstance itemUuid symbolUuid inst).result = .ok () →
      (self.registerSymbolInstance itemUuid symbolUuid inst).self =
        { self with mSymbolInstances := self.mSymbolInstances.insert itemUuid inst } ∧
      (self.registerSymbolInstance itemUuid symbolUuid inst).self.mSymbolInstances.entries =
        (itemUuid, inst) :: self.mSymbolInstances.entries ∧
      ∀ k, (self.registerSymbolInstance itemUuid symbolUuid inst).self.mSymbolInstances.find? k =
        if k = itemUuid then some inst else self.mSymbolInstances.find? k) := by
  refine ⟨⟨fun h => ?_, ?_⟩, ?_, ?_, ?_, ?_, ?_⟩
  · obtain ⟨a, b, c, _⟩ := registerSymbolInstance_ok_inv self itemUuid symbolUuid inst h
    exact ⟨a, b, c⟩
  · rintro ⟨h1, ⟨item, h2, h3⟩, h4⟩
    have hu := GenCompSymbVar.getItemByUuid_uuid _ _ _ h2
    simp [registerSymbolInstance, h1, h2, h3, hu, h4]
  · intro h1
    simp [registerSymbolInstance, h1, errorKind?]
  · intro h1 h2
    simp [registerSymbolInstance, h1, h2, errorKind?]
  · intro h1 item h2 h3
    simp [registerSymbolInstance, h1, h2, h3, errorKind?]
  · intro h1 item h2 h3 h4
    have hu := GenCompSymbVar.getItemByUuid_uuid _ _ _ h2
    simp [registerSymbolInstance, h1, h2, h3, hu, h4, errorKind?]
  · intro h
    obtain ⟨_, _, c, d⟩ := registerSymbolInstance_ok_inv self itemUuid symbolUuid inst h
    rw [d]
    refine ⟨rfl, ?_, fun k => QHash.find?_insert _ _ _ _⟩
    simp only [QHash.insert, QHash.remove_of_not_contains _ _ c]

/-- C7 at the sample project: on the attached object, registering under the slot
`S1` (which expects `SYM1`) with the declared symbol `SYM2` throws
SymbolMismatch. -/
theorem registerSymbolInstance_outcome_witness :
    errorKind? (Sample.attached.registerSymbolInstance Sample.slotS1 Sample.sym2
      (some 1)).result = some .SymbolMismatch :=
  (registerSymbolInstance_outcome Sample.attached Sample.slotS1 Sample.sym2 (some 1)).2.2.2.1
    rfl ⟨Sample.slotS1, Sample.sym1⟩ rfl (by decide)

/-- C8: when `registerSymbolInstance(itemUuid, symbolUuid, instance)` returns, the
call `unregisterSymbolInstance(itemUuid, instance)` made next returns too, and
the object is then exactly as it was before the registration, in every member. -/
theorem register_then_unregister_restores (self : GenericComponentInstance)
    (itemUuid symbolUuid : QUuid) (inst : Option Nat)
    (h : (self.registerSymbolInstance itemUuid symbolUuid inst).result = .ok ()) :
    ((self.registerSymbolInstance itemUuid symbolUuid inst).self.unregisterSymbolInstance
      itemUuid inst).result = .ok () ∧
    ((self.registerSymbolInstance itemUuid symbolUuid inst).self.unregisterSymbolInstance
      itemUuid inst).self = self := by
  obtain ⟨a, _, c, d⟩ := registerSymbolInstance_ok_inv self itemUuid symbolUuid inst h
  rw [d]
  simp only [unregisterSymbolInstance, a, Bool.not_true, Bool.false_eq_true, ↓reduceIte,
    QHash.contains_insert_self, QHash.value_insert_self, ne_eq, not_true_eq_false,
    QHash.remove_insert_of_not_contains _ _ _ c, true_and]
  cases self
  simp only at a
  simp only [a]

/-- C8 at the sample project: registering `SYM1` under `S1` on the attached object
and unregistering it again gives the attached object back. -/
theorem register_then_unregister_restores_witness :
    ((Sample.attached.registerSymbolInstance Sample.slotS1 Sample.sym1
      (some 1)).self.unregisterSymbolInstance Sample.slotS1 (some 1)).result = .ok () ∧
    ((Sample.attached.registerSymbolInstance Sample.slotS1 Sample.sym1
      (some 1)).self.unregisterSymbolInstance Sample.slotS1 (some 1)).self = Sample.attached :=
  register_then_unregister_restores Sample.attached Sample.slotS1 Sample.sym1 (some 1) rfl

/-- C9: `unregisterSymbolInstance(itemUuid, symbol)` throws NotAttached on a detached
object; otherwise SlotNotRegistered when nothing is registered under the slot;
otherwise HandleMismatch when the registered pointer is not `symbol`; otherwise
it returns, only the registry has changed, the slot reads as unregistered and
every other slot reads as before. -/
theorem unregisterSymbolInstance_outcome (self : GenericComponentInstance)
    (itemUuid : QUuid) (symbol : Option Nat) :
    (self.mAddedToCircuit = false →
      errorKind? (self.unregisterSymbolInstance itemUuid symbol).result = some .NotAttached) ∧
    (self.mAddedToCircuit = true → self.mSymbolInstances.find? itemUuid = none →
      errorKind? (self.unregisterSymbolInstance itemUuid symbol).result =
        some .SlotNotRegistered) ∧
    (self.mAddedToCircuit = true →
      ∀ registered, self.mSymbolInstances.find? itemUuid = some registered →
        registered ≠ symbol →
        errorKind? (self.unregisterSymbolInstance itemUuid symbol).result =
          some .HandleMismatch) ∧
    (self.mAddedToCircuit = true → self.mSymbolInstances.find? itemUuid = some symbol →
      (self.unregisterSymbolInstance itemUuid symbol).result = .ok () ∧
      (self.unregisterSymbolInstance itemUuid symbol).self =
        { self with mSymbolInstances := self.mSymbolInstances.remove itemUuid } ∧
      (self.unregisterSymbolInstance itemUuid symbol).self.mSymbolInstances.entries =
        self.mSymbolInstances.entries.filter (fun e => !decide (e.1 = itemUuid)) ∧
      ∀ k, (self.unregisterSymbolInstance itemUuid symbol).self.mSymbolInstances.find? k =
        if k = itemUuid then none else self.mSymbolInstances.find? k) := by
  refine ⟨?_, ?_, ?_, ?_⟩
  · intro h1
    simp [unregisterSymbolInstance, h1, errorKind?]
  · intro h1 h2
    have hc : self.mSymbolInstances.contains itemUuid = false := by
      rw [QHash.contains_eq_isSome_find?, h2]
      rfl
    simp [unregisterSymbolInstance, h1, hc, errorKind?]
  · intro h1 registered h2 h3
    have hc : self.mSymbolInstances.contains itemUuid = true := by
      rw [QHash.contains_eq_isSome_find?, h2]
      rfl
    have hv : self.mSymbolInstances.value itemUuid = registered := by
      simp [QHash.value, h2]
    have h4 : ¬ symbol = registered := fun h => h3 h.symm
    simp [unregisterSymbolInstance, h1, hc, hv, h4, errorKind?]
  · intro h1 h2
    have hc : self.mSymbolInstances.contains itemUuid = true := by
      rw [QHash.contains_eq_isSome_find?, h2]
      rfl
    have hv : self.mSymbolInstances.value itemUuid = symbol := by
      simp [QHash.value, h2]
    simp only [unregisterSymbolInstance, h1, hc, hv, Bool.not_true, Bool.false_eq_true,
      ↓reduceIte, ne_eq, not_true_eq_false, true_and]
    exact ⟨rfl, fun k => QHash.find?_remove _ _ _⟩

/-- C9 at the sample project: unregistering on the attached object before anything
was registered throws SlotNotRegistered. -/
theorem unregisterSymbolInstance_outcome_witness :
    errorKind? (Sample.attached.unregisterSymbolInstance Sample.slotS1 (some 1)).result =
      some .SlotNotRegistered :=
  (unregisterSymbolInstance_outcome Sample.attached Sample.slotS1 (some 1)).2.1 rfl rfl

/-! ## The name -/

/-- C10: `setName("")` throws EmptyName and leaves the object as it was, in every
member: the name, the node with its `name` attribute, and all the rest. -/
theorem setName_empty (self : GenericComponentInstance) :
    (self.setName "").result = .error ⟨.EmptyName, ""⟩ ∧
    (self.setName "").self = self ∧
    (self.setName "").self.mName = self.mName ∧
    (self.setName "").self.mDomElement.getAttribute "name" =
      self.mDomElement.getAttribute "name" := by
  have h : (self.setName "") = ⟨.error ⟨.EmptyName, ""⟩, self⟩ := by
    have he : "".isEmpty = true := by decide
    simp only [setName, he, ↓reduceIte]
  rw [h]
  exact ⟨rfl, rfl, rfl, rfl⟩

/-! ## The name, continued -/

theorem QDomElement.find?_setAttr_self (name value : String) (as : List (String × String)) :
    (QDomElement.setAttr name value as).find? (fun a => decide (a.1 = name)) =
      some (name, value) := by
  induction as with
  | nil => simp [QDomElement.setAttr]
  | cons a as ih =>
    by_cases h : a.1 = name
    · simp [QDomElement.setAttr, h]
    · simp [QDomElement.setAttr, h, List.find?_cons, ih]

theorem QDomElement.find?_setAttr_other (name value other : String)
    (as : List (String × String)) (hne : other ≠ name) :
    (QDomElement.setAttr name value as).find? (fun a => decide (a.1 = other)) =
      as.find? (fun a => decide (a.1 = other)) := by
  have hne2 : ¬ name = other := fun h => hne h.symm
  induction as with
  | nil => simp [QDomElement.setAttr, hne2]
  | cons a as ih =>
    by_cases h : a.1 = name
    · have h2 : ¬ a.1 = other := fun h3 => hne2 (h.symm.trans h3)
      simp [QDomElement.setAttr, h, List.find?_cons, hne2, h2]
    · rw [QDomElement.setAttr, if_neg h, List.find?_cons, List.find?_cons, ih]

theorem QDomElement.getAttribute_setAttribute_self (e : QDomElement) (name value : String)
    (h : e.isNull = false) : (e.setAttribute name value).getAttribute name = value := by
  cases e with
  | null => cases h
  | elem i t as cs =>
    simp [QDomElement.setAttribute, QDomElement.getAttribute, QDomElement.find?_setAttr_self]

theorem QDomElement.getAttribute_setAttribute_other (e : QDomElement)
    (name value other : String) (hne : other ≠ name) :
    (e.setAttribute name value).getAttribute other = e.getAttribute other := by
  cases e with
  | null => rfl
  | elem i t as cs =>
    simp only [QDomElement.setAttribute, QDomElement.getAttribute,
      QDomElement.find?_setAttr_other name value other as hne]

/-- C11: for a non-empty `name`, `setName(name)` returns; afterwards the member
`mName` and the `name` attribute of the node both are `name`; every other
member of the object is as before, and so are the identity, the tag, the
children and every other attribute of the node. The node of the object is not
the null element, as is the case for every constructed object. -/
theorem setName_nonempty (self : GenericComponentInstance) (name : String)
    (hname : name ≠ "") (hnode : self.mDomElement.isNull = false) :
    (self.setName name).result = .ok () ∧
    (self.setName name).self.mName = name ∧
    (self.setName name).self.mDomElement.getAttribute "name" = name ∧
    (self.setName name).self =
      { self with mName := name, mDomElement := self.mDomElement.setAttribute "name" name } ∧
    (∀ other, other ≠ "name" →
      (self.setName name).self.mDomElement.getAttribute other =
        self.mDomElement.getAttribute other) ∧
    (self.setName name).self.mDomElement.nodeName = self.mDomElement.nodeName ∧
    (self.setName name).self.mDomElement.children = self.mDomElement.children ∧
    QDomElement.sameNode (self.setName name).self.mDomElement self.mDomElement = true := by
  have he : name.isEmpty = false := by
    rw [← Bool.not_eq_true, String.isEmpty_iff]
    exact hname
  have h : self.setName name = ⟨.ok (),
      { self with mName := name, mDomElement := self.mDomElement.setAttribute "name" name }⟩ := by
    simp only [setName, he, Bool.false_eq_true, ↓reduceIte]
  rw [h]
  refine ⟨rfl, rfl, ?_, rfl, ?_, ?_, ?_, ?_⟩
  · exact QDomElement.getAttribute_setAttribute_self _ _ _ hnode
  · intro other hne
    exact QDomElement.getAttribute_setAttribute_other _ _ _ _ hne
  · cases hd : self.mDomElement <;> rfl
  · cases hd : self.mDomElement <;> rfl
  · cases hd : self.mDomElement with
    | null => rw [hd] at hnode; cases hnode
    | elem i t as cs => simp [QDomElement.setAttribute, QDomElement.sameNode]

/-- C11 at the sample project: renaming the loaded object to `R2`. -/
theorem setName_nonempty_witness :
    (Sample.loaded.setName "R2").result = .ok () ∧
    (Sample.loaded.setName "R2").self.mName = "R2" ∧
    (Sample.loaded.setName "R2").self.mDomElement.getAttribute "name" = "R2" ∧
    (Sample.loaded.setName "R2").self.mDomElement.getAttribute "uuid" =
      Sample.idInst.toString :=
  have h := setName_nonempty Sample.loaded "R2" (by decide) rfl
  ⟨h.1, h.2.1, h.2.2.1, (h.2.2.2.2.1 "uuid" (by decide)).trans rfl⟩

/-! ## Attach and detach, continued -/

theorem QDomElement.appendChild_fst_of_isNull (parent e : QDomElement)
    (h : (parent.appendChild e).2.isNull = true) : (parent.appendChild e).1 = parent := by
  cases parent with
  | null => rfl
  | elem i t as cs =>
    cases e with
    | null => rfl
    | elem j tj aj cj => simp [QDomElement.appendChild, QDomElement.isNull] at h

theorem QDomElement.removeChild_fst_of_isNull (parent e : QDomElement)
    (h : (parent.removeChild e).2.isNull = true) : (parent.removeChild e).1 = parent := by
  cases parent with
  | null => rfl
  | elem i t as cs =>
    cases e with
    | null => rfl
    | elem j tj aj cj =>
      simp only [QDomElement.removeChild] at h ⊢
      split_ifs at h ⊢ with hc
      · simp [QDomElement.isNull] at h
      · rfl

theorem QDomElement.appendChild_children_getLast? (parent e : QDomElement)
    (h : (parent.appendChild e).2.isNull = false) :
    (parent.appendChild e).1.children.getLast? = some e := by
  cases parent with
  | null => simp [QDomElement.appendChild, QDomElement.isNull] at h
  | elem i t as cs =>
    cases e with
    | null => simp [QDomElement.appendChild, QDomElement.isNull] at h
    | elem j tj aj cj => simp [QDomElement.appendChild, QDomElement.children]

/-- C12: `addToCircuit(addNode, parent)` throws AlreadyAttached on an attached
object; otherwise, with `addNode` set, InvalidParent when the parent is not
called `generic_component_instances`, and otherwise NodeInsertFailed when
`appendChild` hands back the null node; in every remaining case it returns,
with `addNode` set the node of the object is the last child of the parent,
every signal instance has one attach notification more than before (and is
otherwise as before, under the same key), the flag is set, and no other
member has changed. -/
theorem addToCircuit_outcome (self : GenericComponentInstance) (addNode : Bool)
    (parent : QDomElement) :
    (self.mAddedToCircuit = true →
      errorKind? (self.addToCircuit addNode parent).result = some .AlreadyAttached) ∧
    (self.mAddedToCircuit = false → addNode = true →
      parent.nodeName ≠ "generic_component_instances" →
      errorKind? (self.addToCircuit addNode parent).result = some .InvalidParent) ∧
    (self.mAddedToCircuit = false → addNode = true →
      parent.nodeName = "generic_component_instances" →
      (parent.appendChild self.mDomElement).2.isNull = true →
      errorKind? (self.addToCircuit addNode parent).result = some .NodeInsertFailed) ∧
    (self.mAddedToCircuit = false →
      (addNode = true → parent.nodeName = "generic_component_instances" ∧
        (parent.appendChild self.mDomElement).2.isNull = false) →
      (self.addToCircuit addNode parent).result = .ok () ∧
      (addNode = true →
        (self.addToCircuit addNode parent).parent.children.getLast? =
          some self.mDomElement) ∧
      (addNode = false → (self.addToCircuit addNode parent).parent = parent) ∧
      (self.addToCircuit addNode parent).self.mSignals.entries =
        self.mSignals.entries.map (fun e =>
          (e.1, { e.2 with attachNotifications := e.2.attachNotifications + 1 })) ∧
      (self.addToCircuit addNode parent).self.mAddedToCircuit = true ∧
      (self.addToCircuit addNode parent).self =
        { self with
          mSignals := self.mSignals.mapValues GenCompSignalInstance.addToCircuit,
          mAddedToCircuit := true }) := by
  refine ⟨?_, ?_, ?_, ?_⟩
  · intro h1
    simp [addToCircuit, h1, errorKind?]
  · intro h1 h2 h3
    simp [addToCircuit, h1, h2, h3, errorKind?]
  · intro h1 h2 h3 h4
    simp [addToCircuit, h1, h2, h3, h4, errorKind?]
  · intro h1 h2
    cases addNode with
    | false =>
      have h : self.addToCircuit false parent = ⟨.ok (),
          { self with
            mSignals := self.mSignals.mapValues GenCompSignalInstance.addToCircuit,
            mAddedToCircuit := true }, parent⟩ := by
        simp [addToCircuit, h1]
      rw [h]
      exact ⟨rfl, fun h => absurd h (by decide), fun _ => rfl, rfl, rfl, rfl⟩
    | true =>
      obtain ⟨h3, h4⟩ := h2 rfl
      have h : self.addToCircuit true parent = ⟨.ok (),
          { self with
            mSignals := self.mSignals.mapValues GenCompSignalInstance.addToCircuit,
            mAddedToCircuit := true }, (parent.appendChild self.mDomElement).1⟩ := by
        simp [addToCircuit, h1, h3, h4]
      rw [h]
      exact ⟨rfl, fun _ => QDomElement.appendChild_children_getLast? _ _ h4,
        fun h => absurd h (by decide), rfl, rfl, rfl⟩

/-- C12 at the sample project: attaching the loaded object under an empty container
returns and makes its node the last child. -/
theorem addToCircuit_outcome_witness :
    (Sample.loaded.addToCircuit true (Sample.container [])).result = .ok () ∧
    (Sample.loaded.addToCircuit true (Sample.container [])).parent.children.getLast? =
      some Sample.nodeAB ∧
    (Sample.loaded.addToCircuit true (Sample.container [])).self = Sample.attached :=
  have h := (addToCircuit_outcome Sample.loaded true (Sample.container [])).2.2.2 rfl
    (fun _ => ⟨rfl, rfl⟩)
  ⟨h.1, h.2.1 rfl, h.2.2.2.2.2.trans rfl⟩

theorem addToCircuit_error_inv (self : GenericComponentInstance) (addNode : Bool)
    (parent : QDomElement) (e : Exception)
    (h : (self.addToCircuit addNode parent).result = .error e) :
    (self.addToCircuit addNode parent).self = self ∧
    (self.addToCircuit addNode parent).parent = parent := by
  unfold addToCircuit at h ⊢
  split_ifs at h ⊢ with h1 h2 h3
  all_goals try cases h
  · exact ⟨rfl, rfl⟩
  · exact ⟨rfl, rfl⟩
  · exact ⟨rfl, QDomElement.appendChild_fst_of_isNull _ _ h3.2⟩

theorem removeFromCircuit_error_inv (self : GenericComponentInstance) (removeNode : Bool)
    (parent : QDomElement) (e : Exception)
    (h : (self.removeFromCircuit removeNode parent).result = .error e) :
    (self.removeFromCircuit removeNode parent).self = self ∧
    (self.removeFromCircuit removeNode parent).parent = parent := by
  unfold removeFromCircuit at h ⊢
  split_ifs at h ⊢ with h1 h2 h3 h4
  all_goals try cases h
  · exact ⟨rfl, rfl⟩
  · exact ⟨rfl, rfl⟩
  · exact ⟨rfl, rfl⟩
  · exact ⟨rfl, QDomElement.removeChild_fst_of_isNull _ _ h4.2⟩

theorem registerSymbolInstance_error_inv (self : GenericComponentInstance)
    (itemUuid symbolUuid : QUuid) (inst : Option Nat) (e : Exception)
    (h : (self.registerSymbolInstance itemUuid symbolUuid inst).result = .error e) :
    (self.registerSymbolInstance itemUuid symbolUuid inst).self = self := by
  unfold registerSymbolInstance at h ⊢
  cases h1 : self.mAddedToCircuit with
  | false => simp only [Bool.not_false, ↓reduceIte]
  | true =>
    simp only [h1, Bool.not_true, Bool.false_eq_true, ↓reduceIte] at h ⊢
    cases h2 : self.mGenCompSymbVar.getItemByUuid itemUuid with
    | none => simp only
    | some item =>
      simp only [h2] at h ⊢
      split_ifs at h ⊢ with h3 h4
      · rfl
      · rfl

theorem unregisterSymbolInstance_error_inv (self : GenericComponentInstance)
    (itemUuid : QUuid) (symbol : Option Nat) (e : Exception)
    (h : (self.unregisterSymbolInstance itemUuid symbol).result = .error e) :
    (self.unregisterSymbolInstance itemUuid symbol).self = self := by
  unfold unregisterSymbolInstance at h ⊢
  split_ifs at h ⊢ with h1 h2 h3
  all_goals try cases h
  · rfl
  · rfl
  · rfl

theorem unregisterSymbolInstance_ok_inv (self : GenericComponentInstance)
    (itemUuid : QUuid) (symbol : Option Nat)
    (h : (self.unregisterSymbolInstance itemUuid symbol).result = .ok ()) :
    self.mAddedToCircuit = true ∧
    (self.unregisterSymbolInstance itemUuid symbol).self =
      { self with mSymbolInstances := self.mSymbolInstances.remove itemUuid } := by
  unfold unregisterSymbolInstance at h ⊢
  split_ifs at h ⊢ with h1 h2 h3
  all_goals try cases h
  exact ⟨by simpa using h1, rfl⟩

/-- C13: a call of `addToCircuit`, `removeFromCircuit`, `registerSymbolInstance` or
`unregisterSymbolInstance` that throws leaves the object exactly as it was, in
every member (flag, registry, name, signal table with the notification counts),
and leaves the parent element, its child list included, exactly as it was. -/
theorem failed_call_leaves_state (self : GenericComponentInstance) :
    (∀ addNode parent e, (self.addToCircuit addNode parent).result = .error e →
      (self.addToCircuit addNode parent).self = self ∧
      (self.addToCircuit addNode parent).parent = parent) ∧
    (∀ removeNode parent e, (self.removeFromCircuit removeNode parent).result = .error e →
      (self.removeFromCircuit removeNode parent).self = self ∧
      (self.removeFromCircuit removeNode parent).parent = parent) ∧
    (∀ itemUuid symbolUuid inst e,
      (self.registerSymbolInstance itemUuid symbolUuid inst).result = .error e →
      (self.registerSymbolInstance itemUuid symbolUuid inst).self = self) ∧
    (∀ itemUuid symbol e, (self.unregisterSymbolInstance itemUuid symbol).result = .error e →
      (self.unregisterSymbolInstance itemUuid symbol).self = self) := by
  refine ⟨?_, ?_, ?_, ?_⟩
  · intro addNode parent e h
    exact addToCircuit_error_inv self addNode parent e h
  · intro removeNode parent e h
    exact removeFromCircuit_error_inv self removeNode parent e h
  · intro itemUuid symbolUuid inst e h
    exact registerSymbolInstance_error_inv self itemUuid symbolUuid inst e h
  · intro itemUuid symbol e h
    exact unregisterSymbolInstance_error_inv self itemUuid symbol e h

/-- C13 at the sample project: detaching the attached object with the signal `A`
still linked throws and leaves the object and the container as they were. -/
theorem failed_call_leaves_state_witness :
    (Sample.linked.removeFromCircuit true (Sample.container [Sample.nodeAB])).self =
      Sample.linked ∧
    (Sample.linked.removeFromCircuit true (Sample.container [Sample.nodeAB])).parent =
      Sample.container [Sample.nodeAB] :=
  (failed_call_leaves_state Sample.linked).2.1 true (Sample.container [Sample.nodeAB])
    ⟨.SignalStillConnected, ""⟩ rfl

/-- C20: with the node flag off the parent element plays no part. On a detached
object `addToCircuit(false, parent)` returns for every parent, and on an
attached object `removeFromCircuit(false, parent)` returns for every parent,
whether or not signal instances are linked to net signals; the parent is
left as it was, every signal instance has one notification more, and the
flag is switched. -/
theorem node_flag_off_ignores_parent (self : GenericComponentInstance)
    (parent : QDomElement) :
    (self.mAddedToCircuit = false →
      (self.addToCircuit false parent).result = .ok () ∧
      (self.addToCircuit false parent).parent = parent ∧
      (self.addToCircuit false parent).self.mSignals.entries =
        self.mSignals.entries.map (fun e =>
          (e.1, { e.2 with attachNotifications := e.2.attachNotifications + 1 })) ∧
      (self.addToCircuit false parent).self.mAddedToCircuit = true) ∧
    (self.mAddedToCircuit = true →
      (self.removeFromCircuit false parent).result = .ok () ∧
      (self.removeFromCircuit false parent).parent = parent ∧
      (self.removeFromCircuit false parent).self.mSignals.entries =
        self.mSignals.entries.map (fun e =>
          (e.1, { e.2 with detachNotifications := e.2.detachNotifications + 1 })) ∧
      (self.removeFromCircuit false parent).self.mAddedToCircuit = false) := by
  constructor
  · intro h1
    have h : self.addToCircuit false parent = ⟨.ok (),
        { self with
          mSignals := self.mSignals.mapValues GenCompSignalInstance.addToCircuit,
          mAddedToCircuit := true }, parent⟩ := by
      simp [addToCircuit, h1]
    rw [h]
    exact ⟨rfl, rfl, rfl, rfl⟩
  · intro h1
    have h : self.removeFromCircuit false parent = ⟨.ok (),
        { self with
          mSignals := self.mSignals.mapValues GenCompSignalInstance.removeFromCircuit,
          mAddedToCircuit := false }, parent⟩ := by
      simp [removeFromCircuit, h1]
    rw [h]
    exact ⟨rfl, rfl, rfl, rfl⟩

/-- C20 at the sample project: the attached object with the signal `A` still linked
detaches under the null element when the node flag is off. -/
theorem node_flag_off_ignores_parent_witness :
    (Sample.linked.removeFromCircuit false QDomElement.null).result = .ok () ∧
    (Sample.linked.removeFromCircuit false QDomElement.null).parent = QDomElement.null ∧
    (Sample.linked.removeFromCircuit false QDomElement.null).self.mAddedToCircuit = false :=
  have h := (node_flag_off_ignores_parent Sample.linked QDomElement.null).2 rfl
  ⟨h.1, h.2.1, h.2.2.2⟩

/-! ## The object over sequences of calls -/

/-- What the constructor stores in the object it returns. -/
theorem GenericComponentInstance.new_ok_fields (newSignal : SignalConstructor)
    (circuit : Circuit) (domElement : QDomElement) (self : GenericComponentInstance)
    (h : new newSignal circuit domElement = .ok self) :
    self.mDomElement = domElement ∧ self.mAddedToCircuit = false ∧
    self.mName = domElement.getAttribute "name" ∧
    self.mUuid = QUuid.fromString (domElement.getAttribute "uuid") ∧
    self.mSymbolInstances = QHash.empty := by
  obtain ⟨h1, h2, h3, h4, h5, h6⟩ := new_ok_inv newSignal circuit domElement self h
  rw [new_of_header_ok newSignal circuit domElement _ _ h1 h2 h3 h4, h5] at h
  simp only [ne_eq, h6, not_true_eq_false, ↓reduceIte, Except.ok.injEq] at h
  rw [← h]
  exact ⟨rfl, rfl, rfl, rfl, rfl⟩

/-- What a call does to the flag, the name and the registry of the object. -/
theorem Call.after_fields (self : GenericComponentInstance) (call : Call) :
    ((call.after self).mName = self.mName ∨
      (∃ name, call = .setName name ∧ name ≠ "" ∧ call.result self = .ok () ∧
        (call.after self).mName = name)) ∧
    ((call.after self).mAddedToCircuit = self.mAddedToCircuit ∨
      (∃ addNode parent, call = .addToCircuit addNode parent ∧ call.result self = .ok () ∧
        self.mAddedToCircuit = false ∧ (call.after self).mAddedToCircuit = true) ∨
      (∃ removeNode parent, call = .removeFromCircuit removeNode parent ∧
        call.result self = .ok () ∧
        self.mAddedToCircuit = true ∧ (call.after self).mAddedToCircuit = false)) ∧
    ((call.after self).mSymbolInstances = self.mSymbolInstances ∨
      (self.mAddedToCircuit = true ∧ (call.after self).mAddedToCircuit = true ∧
        call.result self = .ok ())) := by
  cases call with
  | setName name =>
    simp only [Call.after, Call.result]
    by_cases hn : name.isEmpty = true
    · have h : self.setName name = ⟨.error ⟨.EmptyName, name⟩, self⟩ := by
        simp only [GenericComponentInstance.setName, hn, ↓reduceIte]
      rw [h]
      exact ⟨Or.inl rfl, Or.inl rfl, Or.inl rfl⟩
    · have hne : name ≠ "" := fun hc => hn ((String.isEmpty_iff name).mpr hc)
      have h : self.setName name = ⟨.ok (),
          { self with mName := name, mDomElement := self.mDomElement.setAttribute "name" name }⟩ := by
        simp only [GenericComponentInstance.setName, hn, Bool.false_eq_true, ↓reduceIte]
      rw [h]
      exact ⟨Or.inr ⟨name, rfl, hne, rfl, rfl⟩, Or.inl rfl, Or.inl rfl⟩
  | addToCircuit addNode parent =>
    simp only [Call.after, Call.result]
    cases hr : (self.addToCircuit addNode parent).result with
    | error e =>
      rw [(addToCircuit_error_inv self addNode parent e hr).1]
      exact ⟨Or.inl rfl, Or.inl rfl, Or.inl rfl⟩
    | ok u =>
      obtain ⟨a1, _, a3, _⟩ := addToCircuit_ok_inv self addNode parent hr
      rw [a3]
      exact ⟨Or.inl rfl, Or.inr (Or.inl ⟨addNode, parent, rfl, rfl, a1, rfl⟩), Or.inl rfl⟩
  | removeFromCircuit removeNode parent =>
    simp only [Call.after, Call.result]
    cases hr : (self.removeFromCircuit removeNode parent).result with
    | error e =>
      rw [(removeFromCircuit_error_inv self removeNode parent e hr).1]
      exact ⟨Or.inl rfl, Or.inl rfl, Or.inl rfl⟩
    | ok u =>
      obtain ⟨a1, _, a3, _⟩ := removeFromCircuit_ok_inv self removeNode parent hr
      rw [a3]
      exact ⟨Or.inl rfl, Or.inr (Or.inr ⟨removeNode, parent, rfl, rfl, a1, rfl⟩), Or.inl rfl⟩
  | registerSymbolInstance itemUuid symbolUuid inst =>
    simp only [Call.after, Call.result]
    cases hr : (self.registerSymbolInstance itemUuid symbolUuid inst).result with
    | error e =>
      rw [registerSymbolInstance_error_inv self itemUuid symbolUuid inst e hr]
      exact ⟨Or.inl rfl, Or.inl rfl, Or.inl rfl⟩
    | ok u =>
      obtain ⟨a1, _, _, a4⟩ := registerSymbolInstance_ok_inv self itemUuid symbolUuid inst hr
      rw [a4]
      exact ⟨Or.inl rfl, Or.inl rfl, Or.inr ⟨a1, a1, rfl⟩⟩
  | unregisterSymbolInstance itemUuid symbol =>
    simp only [Call.after, Call.result]
    cases hr : (self.unregisterSymbolInstance itemUuid symbol).result with
    | error e =>
      rw [unregisterSymbolInstance_error_inv self itemUuid symbol e hr]
      exact ⟨Or.inl rfl, Or.inl rfl, Or.inl rfl⟩
    | ok u =>
      obtain ⟨a1, a2⟩ := unregisterSymbolInstance_ok_inv self itemUuid symbol hr
      rw [a2]
      exact ⟨Or.inl rfl, Or.inl rfl, Or.inr ⟨a1, a1, rfl⟩⟩

/-- Along any sequence of calls the attach and detach calls that return alternate,
the first being the one the flag allows. -/
theorem attachDetachEvents_alternate :
    ∀ (calls : List Call) (self : GenericComponentInstance),
      alternatesFrom (!self.mAddedToCircuit) (attachDetachEvents self calls) = true := by
  intro calls
  induction calls with
  | nil => intro self; rfl
  | cons call calls ih =>
    intro self
    have hf := (Call.after_fields self call).2.1
    cases call with
    | setName name =>
      rcases hf with h | ⟨_, _, hc, _⟩ | ⟨_, _, hc, _⟩
      · simp only [attachDetachEvents, List.nil_append]
        rw [← h]
        exact ih _
      · cases hc
      · cases hc
    | registerSymbolInstance itemUuid symbolUuid inst =>
      rcases hf with h | ⟨_, _, hc, _⟩ | ⟨_, _, hc, _⟩
      · simp only [attachDetachEvents, List.nil_append]
        rw [← h]
        exact ih _
      · cases hc
      · cases hc
    | unregisterSymbolInstance itemUuid symbol =>
      rcases hf with h | ⟨_, _, hc, _⟩ | ⟨_, _, hc, _⟩
      · simp only [attachDetachEvents, List.nil_append]
        rw [← h]
        exact ih _
      · cases hc
      · cases hc
    | addToCircuit addNode parent =>
      cases hr : (self.addToCircuit addNode parent).result with
      | error e =>
        have hs := (addToCircuit_error_inv self addNode parent e hr).1
        simp only [attachDetachEvents, Call.result, Call.after, hr, returned, List.nil_append, hs]
        exact ih _
      | ok u =>
        obtain ⟨a1, _, a3, _⟩ := addToCircuit_ok_inv self addNode parent hr
        have h2 := ih (self.addToCircuit addNode parent).self
        rw [a3] at h2
        simp only [attachDetachEvents, Call.result, Call.after, hr, returned, a1, a3,
          List.singleton_append, alternatesFrom, Bool.not_false, beq_self_eq_true, Bool.true_and,
          Bool.not_true]
        simpa using h2
    | removeFromCircuit removeNode parent =>
      cases hr : (self.removeFromCircuit removeNode parent).result with
      | error e =>
        have hs := (removeFromCircuit_error_inv self removeNode parent e hr).1
        simp only [attachDetachEvents, Call.result, Call.after, hr, returned, List.nil_append,
          hs]
        exact ih _
      | ok u =>
        obtain ⟨a1, _, a3, _⟩ := removeFromCircuit_ok_inv self removeNode parent hr
        have h2 := ih (self.removeFromCircuit removeNode parent).self
        rw [a3] at h2
        simp only [attachDetachEvents, Call.result, Call.after, hr, returned, a1, a3,
          List.singleton_append, alternatesFrom, Bool.not_false, beq_self_eq_true, Bool.true_and,
          Bool.not_true]
        simpa using h2

/-- C15: the flag is off in the object the constructor returns. `addToCircuit`
returns only on a detached object and leaves it attached; `removeFromCircuit`
returns only on an attached object and leaves it detached, and throws
NotAttached on a detached one; `setName`, `registerSymbolInstance`,
`unregisterSymbolInstance` and every call that throws leave the flag as it
was. So along every sequence of calls on a constructed object the attach and
detach calls that return alternate, an attach being the first. -/
theorem attach_detach_protocol :
    (∀ newSignal circuit domElement self,
      new newSignal circuit domElement = .ok self → self.mAddedToCircuit = false) ∧
    (∀ (self : GenericComponentInstance) addNode parent,
      (self.addToCircuit addNode parent).result = .ok () →
      self.mAddedToCircuit = false ∧
      (self.addToCircuit addNode parent).self.mAddedToCircuit = true) ∧
    (∀ (self : GenericComponentInstance) removeNode parent,
      (self.removeFromCircuit removeNode parent).result = .ok () →
      self.mAddedToCircuit = true ∧
      (self.removeFromCircuit removeNode parent).self.mAddedToCircuit = false) ∧
    (∀ (self : GenericComponentInstance) removeNode parent, self.mAddedToCircuit = false →
      errorKind? (self.removeFromCircuit removeNode parent).result = some .NotAttached) ∧
    (∀ (self : GenericComponentInstance) name,
      (self.setName name).self.mAddedToCircuit = self.mAddedToCircuit) ∧
    (∀ (self : GenericComponentInstance) itemUuid symbolUuid inst,
      (self.registerSymbolInstance itemUuid symbolUuid inst).self.mAddedToCircuit =
        self.mAddedToCircuit) ∧
    (∀ (self : GenericComponentInstance) itemUuid symbol,
      (self.unregisterSymbolInstance itemUuid symbol).self.mAddedToCircuit =
        self.mAddedToCircuit) ∧
    (∀ (self : GenericComponentInstance) (call : Call) e, call.result self = .error e →
      (call.after self).mAddedToCircuit = self.mAddedToCircuit) ∧
    (∀ newSignal circuit domElement self,
      new newSignal circuit domElement = .ok self →
      ∀ calls, alternatesFrom true (attachDetachEvents self calls) = true) := by
  refine ⟨?_, ?_, ?_, ?_, ?_, ?_, ?_, ?_, ?_⟩
  · intro newSignal circuit domElement self h
    exact (new_ok_fields newSignal circuit domElement self h).2.1
  · intro self addNode parent h
    obtain ⟨a1, _, a3, _⟩ := addToCircuit_ok_inv self addNode parent h
    rw [a3]
    exact ⟨a1, rfl⟩
  · intro self removeNode parent h
    obtain ⟨a1, _, a3, _⟩ := removeFromCircuit_ok_inv self removeNode parent h
    rw [a3]
    exact ⟨a1, rfl⟩
  · intro self removeNode parent h
    simp [removeFromCircuit, h, errorKind?]
  · intro self name
    rcases (Call.after_fields self (.setName name)).2.1 with h | ⟨_, _, hc, _⟩ | ⟨_, _, hc, _⟩
    · exact h
    · cases hc
    · cases hc
  · intro self itemUuid symbolUuid inst
    rcases (Call.after_fields self (.registerSymbolInstance itemUuid symbolUuid inst)).2.1 with
      h | ⟨_, _, hc, _⟩ | ⟨_, _, hc, _⟩
    · exact h
    · cases hc
    · cases hc
  · intro self itemUuid symbol
    rcases (Call.after_fields self (.unregisterSymbolInstance itemUuid symbol)).2.1 with
      h | ⟨_, _, hc, _⟩ | ⟨_, _, hc, _⟩
    · exact h
    · cases hc
    · cases hc
  · intro self call e h
    rcases (Call.after_fields self call).2.1 with h1 | ⟨_, _, _, hc, _⟩ | ⟨_, _, _, hc, _⟩
    · exact h1
    · rw [h] at hc; cases hc
    · rw [h] at hc; cases hc
  · intro newSignal circuit domElement self h calls
    have hflag := (new_ok_fields newSignal circuit domElement self h).2.1
    have := attachDetachEvents_alternate calls self
    rw [hflag] at this
    exact this

/-- C15 at the sample project: attach, a second attach (which throws), rename,
detach, a second detach (which throws), attach: the calls that return are
attach, detach, attach. -/
theorem attach_detach_protocol_witness :
    attachDetachEvents Sample.loaded
      [.addToCircuit false .null, .addToCircuit false .null, .setName "R2",
        .removeFromCircuit false .null, .removeFromCircuit false .null,
        .addToCircuit false .null] = [true, false, true] ∧
    alternatesFrom true (attachDetachEvents Sample.loaded
      [.addToCircuit false .null, .addToCircuit false .null, .setName "R2",
        .removeFromCircuit false .null, .removeFromCircuit false .null,
        .addToCircuit false .null]) = true :=
  ⟨rfl, attach_detach_protocol.2.2.2.2.2.2.2.2 Sample.newSignal Sample.circuit Sample.nodeAB
    Sample.loaded rfl _⟩

/-- A name that is not empty stays so over any sequence of calls. -/
theorem runCalls_name_nonempty :
    ∀ (calls : List Call) (self : GenericComponentInstance),
      self.mName ≠ "" → (runCalls self calls).mName ≠ "" := by
  intro calls
  induction calls with
  | nil => intro self h; exact h
  | cons call calls ih =>
    intro self h
    apply ih
    rcases (Call.after_fields self call).1 with h1 | ⟨name, _, hne, _, h1⟩
    · rw [h1]; exact h
    · rw [h1]; exact hne

/-- The name of an object the constructor returns is not empty. -/
theorem GenericComponentInstance.new_name_nonempty (newSignal : SignalConstructor)
    (circuit : Circuit) (domElement : QDomElement) (self : GenericComponentInstance)
    (h : new newSignal circuit domElement = .ok self) : self.mName ≠ "" := by
  have h2 := (new_ok_inv newSignal circuit domElement self h).2.1
  rw [(new_ok_fields newSignal circuit domElement self h).2.2.1]
  intro hc
  rw [hc] at h2
  exact absurd h2 (by decide)

/-- An object `create` returns is one the constructor returns for the created node. -/
theorem GenericComponentInstance.create_ok_inv (newSignal : SignalConstructor)
    (circuit : Circuit) (doc : QDomDocument) (fresh genericComponent symbolVariant : QUuid)
    (name : String) (self : GenericComponentInstance)
    (h : create newSignal circuit doc fresh genericComponent symbolVariant name = .ok self) :
    new newSignal circuit (createNode doc fresh genericComponent symbolVariant name) =
      .ok self := by
  unfold create at h
  split_ifs at h
  exact h

/-- C16: the name of an object is not empty when the constructor or `create`
returns it, and it is not empty after any sequence of calls of `setName`,
`addToCircuit`, `removeFromCircuit`, `registerSymbolInstance` and
`unregisterSymbolInstance` on it, whether they return or throw. -/
theorem name_never_empty :
    (∀ newSignal circuit domElement self,
      new newSignal circuit domElement = .ok self →
      self.mName ≠ "" ∧ ∀ calls, (runCalls self calls).mName ≠ "") ∧
    (∀ newSignal circuit doc fresh genericComponent symbolVariant name self,
      create newSignal circuit doc fresh genericComponent symbolVariant name = .ok self →
      self.mName ≠ "" ∧ ∀ calls, (runCalls self calls).mName ≠ "") := by
  constructor
  · intro newSignal circuit domElement self h
    have hn := new_name_nonempty newSignal circuit domElement self h
    exact ⟨hn, fun calls => runCalls_name_nonempty calls self hn⟩
  · intro newSignal circuit doc fresh genericComponent symbolVariant name self h
    have hn := new_name_nonempty newSignal circuit _ self
      (create_ok_inv newSignal circuit doc fresh genericComponent symbolVariant name self h)
    exact ⟨hn, fun calls => runCalls_name_nonempty calls self hn⟩

/-- C16 at the sample project: the loaded object after a rename to the empty text
(which throws), an attach and a rename to `R2` is called `R2`. -/
theorem name_never_empty_witness :
    (runCalls Sample.loaded [.setName "", .addToCircuit false .null, .setName "R2"]).mName =
      "R2" ∧
    (runCalls Sample.loaded [.setName "", .addToCircuit false .null, .setName "R2"]).mName ≠
      "" :=
  ⟨rfl, (name_never_empty.1 Sample.newSignal Sample.circuit Sample.nodeAB Sample.loaded rfl).2 _⟩

/-- C14, as stated, fails: the loaded sample object is attached, a symbol instance
is registered under the slot `S1`, and the object is detached; the detach
returns, the flag is off and the registry still holds the entry. -/
theorem detached_registry_counterexample :
    new Sample.newSignal Sample.circuit Sample.nodeAB = .ok Sample.loaded ∧
    attachDetachEvents Sample.loaded
      [.addToCircuit false .null, .registerSymbolInstance Sample.slotS1 Sample.sym1 (some 1),
        .removeFromCircuit false .null] = [true, false] ∧
    (runCalls Sample.loaded
      [.addToCircuit false .null, .registerSymbolInstance Sample.slotS1 Sample.sym1 (some 1),
        .removeFromCircuit false .null]).mAddedToCircuit = false ∧
    (runCalls Sample.loaded
      [.addToCircuit false .null, .registerSymbolInstance Sample.slotS1 Sample.sym1 (some 1),
        .removeFromCircuit false .null]).mSymbolInstances.isEmpty = false :=
  ⟨rfl, rfl, rfl, rfl⟩

/-- Over a sequence of calls whose returning detaches are made with an empty
registry, a detached object with an empty registry stays one. -/
theorem runCalls_registry_empty :
    ∀ (calls : List Call) (self : GenericComponentInstance),
      (self.mAddedToCircuit = false → self.mSymbolInstances.isEmpty = true) →
      detachesWithEmptyRegistry self calls = true →
      (runCalls self calls).mAddedToCircuit = false →
      (runCalls self calls).mSymbolInstances.isEmpty = true := by
  intro calls
  induction calls with
  | nil => intro self hinv _ hflag; exact hinv hflag
  | cons call calls ih =>
    intro self hinv hclean
    simp only [detachesWithEmptyRegistry, Bool.and_eq_true] at hclean
    obtain ⟨hc1, hc2⟩ := hclean
    apply ih (call.after self) _ hc2
    intro hflag
    obtain ⟨_, hf, hr⟩ := Call.after_fields self call
    rcases hr with hr | ⟨_, hr, _⟩
    · rw [hr]
      rcases hf with hf | ⟨_, _, _, _, _, hf⟩ | ⟨removeNode, parent, hcall, hres, _, _⟩
      · rw [hf] at hflag
        exact hinv hflag
      · rw [hf] at hflag
        cases hflag
      · subst hcall
        simp only [hres, returned, Bool.not_true, Bool.false_or] at hc1
        exact hc1
    · rw [hr] at hflag
      cases hflag

/-- C14, amended: in every state reached from a constructed object by a sequence of
calls in which each `removeFromCircuit` that returns is made with an empty
registry, the registry is empty whenever the flag is off. A call on a detached
object never changes the registry, and `removeFromCircuit` itself neither
checks nor changes it. -/
theorem detached_registry_empty (newSignal : SignalConstructor) (circuit : Circuit)
    (domElement : QDomElement) (self : GenericComponentInstance)
    (hnew : new newSignal circuit domElement = .ok self) :
    self.mSymbolInstances.isEmpty = true ∧
    (∀ calls, detachesWithEmptyRegistry self calls = true →
      (runCalls self calls).mAddedToCircuit = false →
      (runCalls self calls).mSymbolInstances.isEmpty = true) ∧
    (∀ (state : GenericComponentInstance) (call : Call), state.mAddedToCircuit = false →
      (call.after state).mSymbolInstances = state.mSymbolInstances) ∧
    (∀ (state : GenericComponentInstance) removeNode parent,
      (state.removeFromCircuit removeNode parent).self.mSymbolInstances =
        state.mSymbolInstances) := by
  have hreg := (new_ok_fields newSignal circuit domElement self hnew).2.2.2.2
  have hempty : self.mSymbolInstances.isEmpty = true := by rw [hreg]; rfl
  refine ⟨hempty, ?_, ?_, ?_⟩
  · intro calls hclean hflag
    exact runCalls_registry_empty calls self (fun _ => hempty) hclean hflag
  · intro state call hflag
    rcases (Call.after_fields state call).2.2 with h | ⟨h, _, _⟩
    · exact h
    · rw [hflag] at h
      cases h
  · intro state removeNode parent
    rcases (Call.after_fields state (.removeFromCircuit removeNode parent)).2.2 with
      h | ⟨_, h, _⟩
    · exact h
    · rcases (Call.after_fields state (.removeFromCircuit removeNode parent)).2.1 with
        h1 | ⟨_, _, hc, _⟩ | ⟨_, _, _, hres, _, _⟩
      · cases hr : (state.removeFromCircuit removeNode parent).result with
        | error e => rw [(removeFromCircuit_error_inv state removeNode parent e hr).1]
        | ok u => rw [(removeFromCircuit_ok_inv state removeNode parent hr).2.2.1]
      · cases hc
      · rw [(removeFromCircuit_ok_inv state removeNode parent hres).2.2.1]

/-- C14, amended, at the sample project: attach, register under `S1`, unregister,
detach; the detach is made with an empty registry, and the detached object has
an empty registry. -/
theorem detached_registry_empty_witness :
    (runCalls Sample.loaded
      [.addToCircuit false .null, .registerSymbolInstance Sample.slotS1 Sample.sym1 (some 1),
        .unregisterSymbolInstance Sample.slotS1 (some 1),
        .removeFromCircuit false .null]).mSymbolInstances.isEmpty = true :=
  (detached_registry_empty Sample.newSignal Sample.circuit Sample.nodeAB Sample.loaded rfl).2.1
    _ rfl rfl

/-! ## Text form of identifiers -/

theorem hexValue_hexDigit (d : Nat) (h : d < 16) : hexValue (hexDigit d) = some d := by
  interval_cases d <;> rfl

theorem toHex_length (n v : Nat) : (toHex n v).length = n := by
  induction n generalizing v with
  | zero => rfl
  | succ n ih => simp [toHex, ih]

/-- Reading one more digit: read `n` digits, then one. -/
theorem fromHex_succ (n acc : Nat) (src : List Char) :
    fromHex (n + 1) acc src =
      match fromHex n acc src with
      | none => none
      | some (_, []) => none
      | some (a, c :: rest) =>
        match hexValue c with
        | none => none
        | some d => some (a * 16 + d, rest) := by
  induction n generalizing acc src with
  | zero =>
    cases src with
    | nil => rfl
    | cons c rest =>
      simp only [fromHex]
  | succ n ih =>
    cases src with
    | nil => rfl
    | cons c rest =>
      rw [fromHex]
      cases hc : hexValue c with
      | none => simp only [fromHex, hc]
      | some d =>
        simp only
        rw [ih]
        conv_rhs => rw [fromHex]
        simp only [hc]

/-- Reading back the digits written by `toHex`. -/
theorem fromHex_toHex (n acc v : Nat) (rest : List Char) :
    fromHex n acc (toHex n v ++ rest) = some (acc * 16 ^ n + v % 16 ^ n, rest) := by
  induction n generalizing v rest with
  | zero => simp [fromHex, toHex, Nat.mod_one]
  | succ n ih =>
    rw [fromHex_succ, toHex, List.append_assoc, ih]
    simp only [List.singleton_append, hexValue_hexDigit _ (Nat.mod_lt v (by norm_num)),
      Option.some.injEq, Prod.mk.injEq, and_true]
    have h1 : v % 16 ^ (n + 1) = v % 16 + 16 * (v / 16 % 16 ^ n) := by
      rw [pow_succ, mul_comm, Nat.mod_mul]
    rw [h1, pow_succ]
    ring

/-- The text form of an identifier, as a list of characters with the groups in a
row. -/
theorem QUuid.toString_toList (u : QUuid) :
    u.toString.toList = Char.ofNat 123 :: (toHex 8 (u.val / 2 ^ 96) ++ ('-' ::
      (toHex 4 (u.val / 2 ^ 80) ++ ('-' :: (toHex 4 (u.val / 2 ^ 64) ++ ('-' ::
      (toHex 4 (u.val / 2 ^ 48) ++ ('-' :: (toHex 12 u.val ++ [Char.ofNat 125]))))))))) := by
  simp only [QUuid.toString, String.toList, List.append_assoc, List.singleton_append,
    List.cons_append, List.nil_append]

theorem QUuid.toString_length (u : QUuid) : u.toString.toList.length = 38 := by
  rw [QUuid.toString_toList]
  simp [toHex_length]

/-- Reading the text form of a 128-bit identifier gives the identifier back. -/
theorem QUuid.parse_toString (u : QUuid) (h : u.val < 2 ^ 128) :
    QUuid.parse u.toString = some u := by
  unfold QUuid.parse
  simp only [QUuid.toString_length, Nat.reduceLT, ↓reduceIte, and_false]
  rw [QUuid.toString_toList]
  simp only [uuidFromHex, ↓reduceIte, fromHex_toHex, dash, Option.map_some', Option.some.injEq]
  cases u with
  | mk v =>
    simp only [QUuid.mk.injEq] at h ⊢
    norm_num
    omega

theorem QUuid.fromString_toString (u : QUuid) (h : u.val < 2 ^ 128) :
    QUuid.fromString u.toString = u := by
  simp [QUuid.fromString, QUuid.parse_toString u h]

/-! ## The factory -/

/-- The node `create` fills in, written out, for a document that is not null. -/
theorem GenericComponentInstance.createNode_eq (doc : QDomDocument)
    (fresh genericComponent symbolVariant : QUuid) (name : String) (hdoc : doc.isNull = false) :
    createNode doc fresh genericComponent symbolVariant name =
      .elem doc.nextId "instance"
        [("uuid", fresh.toString), ("name", name),
          ("generic_component", genericComponent.toString),
          ("symbol_variant", symbolVariant.toString)] [] := by
  have h1 : ¬ "uuid" = "name" := by decide
  have h2 : ¬ "uuid" = "generic_component" := by decide
  have h3 : ¬ "name" = "generic_component" := by decide
  have h4 : ¬ "uuid" = "symbol_variant" := by decide
  have h5 : ¬ "name" = "symbol_variant" := by decide
  have h6 : ¬ "generic_component" = "symbol_variant" := by decide
  simp only [createNode, QDomDocument.createElement, hdoc, Bool.false_eq_true, ↓reduceIte,
    QDomElement.setAttribute, QDomElement.setAttr, h1, h2, h3, h4, h5, h6]

/-- The attributes the constructor reads from the node `create` fills in. -/
theorem GenericComponentInstance.createNode_attributes (doc : QDomDocument)
    (fresh genericComponent symbolVariant : QUuid) (name : String) (hdoc : doc.isNull = false) :
    (createNode doc fresh genericComponent symbolVariant name).getAttribute "uuid" =
      fresh.toString ∧
    (createNode doc fresh genericComponent symbolVariant name).getAttribute "name" = name ∧
    (createNode doc fresh genericComponent symbolVariant name).getAttribute
      "generic_component" = genericComponent.toString ∧
    (createNode doc fresh genericComponent symbolVariant name).getAttribute
      "symbol_variant" = symbolVariant.toString ∧
    mapElements (createNode doc fresh genericComponent symbolVariant name) = [] := by
  have h1 : ¬ "uuid" = "name" := by decide
  have h2 : ¬ "uuid" = "generic_component" := by decide
  have h3 : ¬ "name" = "generic_component" := by decide
  have h4 : ¬ "uuid" = "symbol_variant" := by decide
  have h5 : ¬ "name" = "symbol_variant" := by decide
  have h6 : ¬ "generic_component" = "symbol_variant" := by decide
  rw [createNode_eq doc fresh genericComponent symbolVariant name hdoc]
  refine ⟨?_, ?_, ?_, ?_, rfl⟩
  · simp [QDomElement.getAttribute]
  · simp [QDomElement.getAttribute, h1]
  · simp [QDomElement.getAttribute, h2, h3]
  · simp [QDomElement.getAttribute, h4, h5, h6]

theorem GenericComponentInstance.create_eq_new (newSignal : SignalConstructor)
    (circuit : Circuit) (doc : QDomDocument) (fresh genericComponent symbolVariant : QUuid)
    (name : String) (hdoc : doc.isNull = false) :
    create newSignal circuit doc fresh genericComponent symbolVariant name =
      new newSignal circuit (createNode doc fresh genericComponent symbolVariant name) := by
  simp [create, QDomDocument.createElement, hdoc, QDomElement.isNull]

theorem QUuid.isNull_fromString_toString (u : QUuid) (h : u.val < 2 ^ 128)
    (hn : u ≠ QUuid.null) : (QUuid.fromString u.toString).isNull = false := by
  rw [QUuid.fromString_toString u h, ← Bool.not_eq_true, QUuid.isNull_iff]
  exact hn

/-- C17, as stated, fails: the node `create` fills in has no child element, so it
has no `signal_mapping` section, not an empty one. -/
theorem create_signal_mapping_counterexample :
    (createNode ⟨false, 7⟩ Sample.idInst Sample.idD Sample.idV "R1").children = [] ∧
    ((createNode ⟨false, 7⟩ Sample.idInst Sample.idD Sample.idV "R1").firstChildElement
      "signal_mapping").isNull = true ∧
    ¬ (∃ child ∈ (createNode ⟨false, 7⟩ Sample.idInst Sample.idD Sample.idV "R1").children,
      child.nodeName = "signal_mapping" ∧ child.children = []) := by
  refine ⟨rfl, rfl, ?_⟩
  rintro ⟨child, hmem, _⟩
  have hc : (createNode ⟨false, 7⟩ Sample.idInst Sample.idD Sample.idV "R1").children = [] :=
    rfl
  rw [hc] at hmem
  cases hmem

/-- C17, amended: on a document that is not null, `create` fills in a new element
`instance` carrying exactly the four attributes `uuid` (the text of the fresh
identifier), `name`, `generic_component` and `symbol_variant`, and no child
element: it has no `signal_mapping` section at all, so the constructor finds
no `map` entry; and `create` returns
or throws exactly as the constructor does on that node. With a fresh
identifier that is a non-null 128-bit value, an empty name gives EmptyName,
and a definition identifier unknown to the library gives
UnknownComponentDefinition. -/
theorem create_is_new_on_created_node (newSignal : SignalConstructor) (circuit : Circuit)
    (doc : QDomDocument) (fresh genericComponent symbolVariant : QUuid) (name : String)
    (hdoc : doc.isNull = false) :
    createNode doc fresh genericComponent symbolVariant name =
      .elem doc.nextId "instance"
        [("uuid", fresh.toString), ("name", name),
          ("generic_component", genericComponent.toString),
          ("symbol_variant", symbolVariant.toString)] [] ∧
    (createNode doc fresh genericComponent symbolVariant name).children = [] ∧
    (createNode doc fresh genericComponent symbolVariant name).firstChildElement
      "signal_mapping" = QDomElement.null ∧
    mapElements (createNode doc fresh genericComponent symbolVariant name) = [] ∧
    create newSignal circuit doc fresh genericComponent symbolVariant name =
      new newSignal circuit (createNode doc fresh genericComponent symbolVariant name) ∧
    (fresh.val < 2 ^ 128 → fresh ≠ QUuid.null → name = "" →
      errorKind? (create newSignal circuit doc fresh genericComponent symbolVariant name) =
        some .EmptyName) ∧
    (fresh.val < 2 ^ 128 → fresh ≠ QUuid.null → name ≠ "" →
      genericComponent.val < 2 ^ 128 →
      circuit.library.getGenericComponent genericComponent = none →
      errorKind? (create newSignal circuit doc fresh genericComponent symbolVariant name) =
        some .UnknownComponentDefinition) := by
  obtain ⟨a1, a2, a3, _, a5⟩ :=
    createNode_attributes doc fresh genericComponent symbolVariant name hdoc
  obtain ⟨_, c2, c3, _, _⟩ := new_header_cases newSignal circuit
    (createNode doc fresh genericComponent symbolVariant name)
  have heq := create_eq_new newSignal circuit doc fresh genericComponent symbolVariant name hdoc
  have hnode := createNode_eq doc fresh genericComponent symbolVariant name hdoc
  refine ⟨hnode, by rw [hnode]; rfl, by rw [hnode]; rfl, a5, heq, ?_, ?_⟩
  · intro hf hn hname
    rw [heq]
    apply c2
    · rw [a1]; exact QUuid.isNull_fromString_toString fresh hf hn
    · rw [a2, hname]; decide
  · intro hf hn hname hg hnone
    rw [heq]
    apply c3
    · rw [a1]; exact QUuid.isNull_fromString_toString fresh hf hn
    · rw [a2, ← Bool.not_eq_true, String.isEmpty_iff]; exact hname
    · rw [a3, QUuid.fromString_toString genericComponent hg]; exact hnone

/-- C17, amended, at the sample project: `create` with an empty name throws EmptyName, and
with the identifier of a definition the library does not hold throws
UnknownComponentDefinition. -/
theorem create_is_new_on_created_node_witness :
    errorKind? (create Sample.newSignal Sample.circuit ⟨false, 7⟩ Sample.idInst Sample.idD
      Sample.idV "") = some .EmptyName ∧
    errorKind? (create Sample.newSignal Sample.circuit ⟨false, 7⟩ Sample.idInst Sample.sigA
      Sample.idV "R1") = some .UnknownComponentDefinition :=
  ⟨(create_is_new_on_created_node Sample.newSignal Sample.circuit ⟨false, 7⟩ Sample.idInst
      Sample.idD Sample.idV "" rfl).2.2.2.2.2.1 (by decide) (by decide) rfl,
    (create_is_new_on_created_node Sample.newSignal Sample.circuit ⟨false, 7⟩ Sample.idInst
      Sample.sigA Sample.idV "R1" rfl).2.2.2.2.2.2 (by decide) (by decide) (by decide) (by decide)
      rfl⟩

/-- C19: on a document that is not null, with a fresh identifier and identifiers of
a definition and a variant that are 128-bit values, the fresh one not null, a
name that is not empty, and the definition and its variant found, `create`
returns if and only if the definition has no signal; when it has `n ≥ 1`
signals, `create` throws SignalCountMismatch with the debug message `0!=n`. -/
theorem create_returns_iff_no_signals (newSignal : SignalConstructor) (circuit : Circuit)
    (doc : QDomDocument) (fresh genericComponent symbolVariant : QUuid) (name : String)
    (D : GenericComponent) (V : GenCompSymbVar)
    (hdoc : doc.isNull = false)
    (hfresh : fresh.val < 2 ^ 128) (hnotnull : fresh ≠ QUuid.null)
    (hg : genericComponent.val < 2 ^ 128) (hv : symbolVariant.val < 2 ^ 128)
    (hname : name ≠ "")
    (hD : circuit.library.getGenericComponent genericComponent = some D)
    (hV : D.getSymbolVariantByUuid symbolVariant = some V) :
    (returned (create newSignal circuit doc fresh genericComponent symbolVariant name) = true ↔
      D.getSignals.count = 0) ∧
    (D.getSignals.count ≠ 0 →
      create newSignal circuit doc fresh genericComponent symbolVariant name =
        .error ⟨.SignalCountMismatch, "0!=" ++ toString D.getSignals.count⟩) := by
  obtain ⟨a1, a2, a3, a4, a5⟩ :=
    createNode_attributes doc fresh genericComponent symbolVariant name hdoc
  have hnew := new_of_header_ok newSignal circuit
    (createNode doc fresh genericComponent symbolVariant name) D V
    (by rw [a1]; exact QUuid.isNull_fromString_toString fresh hfresh hnotnull)
    (by rw [a2, ← Bool.not_eq_true, String.isEmpty_iff]; exact hname)
    (by rw [a3, QUuid.fromString_toString genericComponent hg]; exact hD)
    (by rw [a4, QUuid.fromString_toString symbolVariant hv]; exact hV)
  rw [a5] at hnew
  have hcount : (QHash.empty : QHash QUuid GenCompSignalInstance).count = 0 := rfl
  simp only [loadSignals, hcount] at hnew
  rw [create_eq_new newSignal circuit doc fresh genericComponent symbolVariant name hdoc, hnew]
  have hmsg : toString 0 ++ "!=" ++ toString D.getSignals.count =
      "0!=" ++ toString D.getSignals.count := by
    have h0 : toString 0 ++ "!=" = "0!=" := by decide
    rw [h0]
  by_cases hc : D.getSignals.count = 0
  · have hc2 : ¬ (0 ≠ D.getSignals.count) := fun h => h hc.symm
    rw [if_neg hc2]
    exact ⟨⟨fun _ => hc, fun _ => rfl⟩, fun h => absurd hc h⟩
  · have hc2 : 0 ≠ D.getSignals.count := fun h => hc h.symm
    rw [if_pos hc2, hmsg]
    exact ⟨⟨fun h => (by cases h), fun h => absurd h hc⟩, fun _ => rfl⟩

/-- C19 at the sample project: `create` for the definition `D`, which has the two
signals `A` and `B`, throws SignalCountMismatch with the message `0!=2`. -/
theorem create_returns_iff_no_signals_witness :
    create Sample.newSignal Sample.circuit ⟨false, 7⟩ Sample.idInst Sample.idD Sample.idV
      "R1" = .error ⟨.SignalCountMismatch, "0!=2"⟩ :=
  (create_returns_iff_no_signals Sample.newSignal Sample.circuit ⟨false, 7⟩ Sample.idInst
    Sample.idD Sample.idV "R1" Sample.compD Sample.varV rfl (by decide) (by decide)
    (by decide) (by decide) (by decide) rfl rfl).2 (by decide)

/-! ## Construction: the two checks together -/

/-- C18: when the first four checks pass and the signal constructor succeeds on every
`map` element, binding it to a signal (`key`) of the definition `D`, the
constructor returns if and only if the signals of the entries are pairwise
different and as many as the signals of `D`; and that is the case if and only
if the list of entry signals is a rearrangement of the signal set of `D`. -/
theorem new_returns_iff_permutation (newSignal : SignalConstructor) (circuit : Circuit)
    (domElement : QDomElement) (D : GenericComponent) (V : GenCompSymbVar)
    (key : QDomElement → QUuid)
    (h1 : (QUuid.fromString (domElement.getAttribute "uuid")).isNull = false)
    (h2 : (domElement.getAttribute "name").isEmpty = false)
    (h3 : circuit.library.getGenericComponent
      (QUuid.fromString (domElement.getAttribute "generic_component")) = some D)
    (h4 : D.getSymbolVariantByUuid
      (QUuid.fromString (domElement.getAttribute "symbol_variant")) = some V)
    (hsig : ∀ e ∈ mapElements domElement,
      ∃ s, newSignal circuit D e = .ok s ∧ s.getCompSignal.uuid = key e)
    (hmem : ∀ e ∈ mapElements domElement, key e ∈ D.getSignals.keys) :
    (returned (new newSignal circuit domElement) = true ↔
      ((mapElements domElement).map key).Nodup ∧
        (mapElements domElement).length = D.getSignals.count) ∧
    (returned (new newSignal circuit domElement) = true ↔
      ((mapElements domElement).map key).Perm D.getSignals.keys.dedup) := by
  have hfirst : returned (new newSignal circuit domElement) = true ↔
      ((mapElements domElement).map key).Nodup ∧
        (mapElements domElement).length = D.getSignals.count := by
    rw [new_of_header_ok newSignal circuit domElement D V h1 h2 h3 h4]
    by_cases hnd : ((mapElements domElement).map key).Nodup
    · obtain ⟨m', hm', hkeys⟩ := loadSignals_distinct (newSignal circuit D) key
        (mapElements domElement) QHash.empty hsig
        (by simpa [QHash.empty, QHash.keys] using hnd)
      have hnd2 : m'.keys.Nodup := by
        rw [hkeys]
        simpa [QHash.empty, QHash.keys] using hnd
      have hcount : m'.count = (mapElements domElement).length := by
        rw [QHash.count_of_nodup m' hnd2, hkeys]
        simp [QHash.empty, QHash.keys]
      rw [hm']
      simp only [hcount]
      by_cases hc : (mapElements domElement).length = D.getSignals.count
      · rw [if_neg (fun h => h hc)]
        exact ⟨fun _ => ⟨hnd, hc⟩, fun _ => rfl⟩
      · rw [if_pos hc]
        exact ⟨fun h => (by cases h), fun h => absurd h.2 hc⟩
    · obtain ⟨msg, hmsg⟩ := loadSignals_duplicate (newSignal circuit D) key
        (mapElements domElement) QHash.empty hsig (by simp [QHash.empty, QHash.keys])
        (by simpa [QHash.empty, QHash.keys] using hnd)
      rw [hmsg]
      exact ⟨fun h => (by cases h), fun h => absurd h.1 hnd⟩
  refine ⟨hfirst, hfirst.trans ?_⟩
  constructor
  · rintro ⟨hnd, hlen⟩
    have hsub : (mapElements domElement).map key ⊆ D.getSignals.keys.dedup := by
      intro u hu
      obtain ⟨e, he, rfl⟩ := List.mem_map.mp hu
      exact List.mem_dedup.mpr (hmem e he)
    apply (List.subperm_of_subset hnd hsub).perm_of_length_le
    rw [List.length_map, hlen]
    exact le_of_eq rfl
  · intro hperm
    refine ⟨hperm.nodup_iff.mpr (List.nodup_dedup _), ?_⟩
    have := hperm.length_eq
    rw [List.length_map] at this
    exact this

/-- C18 at the sample project: the mapping `A`, `B` is a rearrangement of the signals
of `D`, and the node loads. -/
theorem new_returns_iff_permutation_witness :
    returned (new Sample.newSignal Sample.circuit Sample.nodeAB) = true :=
  (new_returns_iff_permutation Sample.newSignal Sample.circuit Sample.nodeAB Sample.compD
    Sample.varV
    (fun e => QUuid.fromString (e.getAttribute "comp_signal"))
    rfl rfl rfl rfl
    (by
      intro e he
      have hm : mapElements Sample.nodeAB =
          [Sample.mapElement 9 Sample.sigA, Sample.mapElement 10 Sample.sigB] := rfl
      rw [hm] at he
      simp only [List.mem_cons, List.mem_singleton, List.not_mem_nil, or_false] at he
      rcases he with rfl | rfl
      · exact ⟨⟨⟨Sample.sigA, "A"⟩, none, 0, 0⟩, rfl, by decide⟩
      · exact ⟨⟨⟨Sample.sigB, "B"⟩, none, 0, 0⟩, rfl, by decide⟩)
    (by
      intro e he
      have hm : mapElements Sample.nodeAB =
          [Sample.mapElement 9 Sample.sigA, Sample.mapElement 10 Sample.sigB] := rfl
      rw [hm] at he
      simp only [List.mem_cons, List.mem_singleton, List.not_mem_nil, or_false] at he
      rcases he with rfl | rfl <;> decide)).2.mpr (by decide)

/-! ## The node of a constructed object -/

/-- The node of an object the constructor returns is not the null element. -/
theorem GenericComponentInstance.new_node_not_null (newSignal : SignalConstructor)
    (circuit : Circuit) (domElement : QDomElement) (self : GenericComponentInstance)
    (h : new newSignal circuit domElement = .ok self) : self.mDomElement.isNull = false := by
  have h1 := (new_ok_inv newSignal circuit domElement self h).1
  rw [(new_ok_fields newSignal circuit domElement self h).1]
  cases domElement with
  | null => exact absurd h1 (by decide)
  | elem i t as cs => rfl

/-- No call turns the node of the object into the null element, or back. -/
theorem Call.after_node_isNull (self : GenericComponentInstance) (call : Call) :
    (call.after self).mDomElement.isNull = self.mDomElement.isNull := by
  cases call with
  | setName name =>
    simp only [Call.after, GenericComponentInstance.setName]
    split_ifs
    · rfl
    · cases hd : self.mDomElement <;> rfl
  | addToCircuit addNode parent =>
    simp only [Call.after]
    cases hr : (self.addToCircuit addNode parent).result with
    | error e => rw [(addToCircuit_error_inv self addNode parent e hr).1]
    | ok u => rw [(addToCircuit_ok_inv self addNode parent hr).2.2.1]
  | removeFromCircuit removeNode parent =>
    simp only [Call.after]
    cases hr : (self.removeFromCircuit removeNode parent).result with
    | error e => rw [(removeFromCircuit_error_inv self removeNode parent e hr).1]
    | ok u => rw [(removeFromCircuit_ok_inv self removeNode parent hr).2.2.1]
  | registerSymbolInstance itemUuid symbolUuid inst =>
    simp only [Call.after]
    cases hr : (self.registerSymbolInstance itemUuid symbolUuid inst).result with
    | error e => rw [registerSymbolInstance_error_inv self itemUuid symbolUuid inst e hr]
    | ok u => rw [(registerSymbolInstance_ok_inv self itemUuid symbolUuid inst hr).2.2.2]
  | unregisterSymbolInstance itemUuid symbol =>
    simp only [Call.after]
    cases hr : (self.unregisterSymbolInstance itemUuid symbol).result with
    | error e => rw [unregisterSymbolInstance_error_inv self itemUuid symbol e hr]
    | ok u => rw [(unregisterSymbolInstance_ok_inv self itemUuid symbol hr).2]

/-- In every state reached from a constructed object the node is not the null
element. -/
theorem runCalls_node_not_null (newSignal : SignalConstructor) (circuit : Circuit)
    (domElement : QDomElement) (self : GenericComponentInstance)
    (h : new newSignal circuit domElement = .ok self) (calls : List Call) :
    (runCalls self calls).mDomElement.isNull = false := by
  have h0 := new_node_not_null newSignal circuit domElement self h
  clear h
  induction calls generalizing self with
  | nil => exact h0
  | cons call calls ih =>
    apply ih
    rw [Call.after_node_isNull]
    exact h0

end project
